import Mathlib

/-!
# AMS5915 pressure sensor driver (`ams5915.c`)

A shallow embedding of the driver's decoding, calibration and query code.

* C `int` / `uint32_t` values are `Int` / `Nat`; every place where the C code
  converts between them or can wrap is written with an explicit `% 2^32`
  (`u32`, `s32`, `int32`).
* Calls into the kernel (the I2C transport, the clock, the IIO core) are
  recorded in a trace of `Effect`s, oldest first.  What the kernel answers is
  given by an `Env`, whose oracles may depend on the whole history.
* Out-parameters (`raw`, `val`, `val2`) are passed in with their previous
  contents and returned with their new contents.
-/

namespace AMS5915

/-! ## Machine integers -/

/-- Conversion of a C `int` to `uint32_t` (value modulo `2^32`). -/
def u32 (x : Int) : Nat := (x % 2 ^ 32).toNat

/-- Conversion of a `uint32_t` (or wider unsigned) value to a C `int`:
the low 32 bits read as two's complement. -/
def s32 (n : Nat) : Int :=
  if n % 2 ^ 32 < 2 ^ 31 then ((n % 2 ^ 32 : Nat) : Int) else ((n % 2 ^ 32 : Nat) : Int) - 2 ^ 32

/-- Result of a C `int` operation whose mathematical value is `x`
(the kernel is built with wrapping signed arithmetic). -/
def int32 (x : Int) : Int := s32 (u32 x)

/-! ## Constants of the kernel headers used by the driver -/

/-- Errno `EIO` of `errno-base.h`. -/
def EIO : Int := 5
/-- Errno `ENOMEM` of `errno-base.h`. -/
def ENOMEM : Int := 12
/-- Errno `EINVAL` of `errno-base.h`. -/
def EINVAL : Int := 22
/-- Errno `EOPNOTSUPP` of `errno.h`. -/
def EOPNOTSUPP : Int := 95
/-- Return code of `read_raw` for a plain integer in `*val`. -/
def IIO_VAL_INT : Int := 1
/-- Return code of `read_raw` for the fraction `*val / *val2`. -/
def IIO_VAL_FRACTIONAL : Int := 10
/-- The `irqreturn_t` value `IRQ_HANDLED`. -/
def IRQ_HANDLED : Int := 1

/-- Channel types of `enum iio_chan_type`; every type the driver does not
name is `other`. -/
inductive iio_chan_type where
  | IIO_TEMP
  | IIO_PRESSURE
  | other (code : Nat)
  deriving DecidableEq, Repr

/-- Query modes of `enum iio_chan_info_enum`; every mode the driver does not
name is `other`. -/
inductive iio_chan_info where
  | IIO_CHAN_INFO_RAW
  | IIO_CHAN_INFO_PROCESSED
  | IIO_CHAN_INFO_SCALE
  | IIO_CHAN_INFO_OFFSET
  | other (code : Nat)
  deriving DecidableEq, Repr

/-! ## Constants of `ams5915.c` -/

def TEMP_RAW_SHIFT : Nat := 5
def TEMP_RAW_MASK : Nat := (1 <<< 11) - 1
def TEMP_SCALE_MUL : Int := 200000
def TEMP_SCALE_DIV : Int := 2048
def TEMP_OFFSET : Int := -50000

def PRESS_RAW_SHIFT : Nat := 0
def PRESS_RAW_MASK : Nat := (1 <<< 14) - 1
def PRESS_RAW_MIN : Int := 1638
def PRESS_RAW_MAX : Int := 14745
def PRESS_SCALE_DIV : Int := PRESS_RAW_MAX - PRESS_RAW_MIN

/-- Scale mBar to kPascal as required by the IIO ABI. -/
def PRESS_SCALE_DIV_KPA : Int := PRESS_SCALE_DIV * 10

/-! ## Data model -/

structure AMS5915_TYPEDEF_T where
  pmin : Int
  pmax : Int
  deriving DecidableEq, Repr

/-- Private data of a device instance (the `client` pointer is the bus the
environment stands for). -/
structure AMS5915_DATA_T where
  press_scale_mul : Int
  press_offset : Int
  deriving DecidableEq, Repr

structure AMS5915_RAW_T where
  press : Nat
  temp : Nat
  timestamp : Int
  deriving DecidableEq, Repr

/-! ### `AMS5915_TYPE_T` -/

def AMS5915_0005_D_TYPE : Nat := 0
def AMS5915_0010_D_TYPE : Nat := 1
def AMS5915_0005_D_B_TYPE : Nat := 2
def AMS5915_0010_D_B_TYPE : Nat := 3
def AMS5915_0020_D_TYPE : Nat := 4
def AMS5915_0050_D_TYPE : Nat := 5
def AMS5915_0100_D_TYPE : Nat := 6
def AMS5915_0020_D_B_TYPE : Nat := 7
def AMS5915_0050_D_B_TYPE : Nat := 8
def AMS5915_0100_D_B_TYPE : Nat := 9
def AMS5915_0200_D_TYPE : Nat := 10
def AMS5915_0350_D_TYPE : Nat := 11
def AMS5915_1000_D_TYPE : Nat := 12
def AMS5915_2000_D_TYPE : Nat := 13
def AMS5915_4000_D_TYPE : Nat := 14
def AMS5915_7000_D_TYPE : Nat := 15
def AMS5915_10000_D_TYPE : Nat := 16
def AMS5915_0200_D_B_TYPE : Nat := 17
def AMS5915_0350_D_B_TYPE : Nat := 18
def AMS5915_1000_D_B_TYPE : Nat := 19
def AMS5915_1000_A_TYPE : Nat := 20
def AMS5915_1200_B_TYPE : Nat := 21
def AMS5915_TYPE_COUNT : Nat := 22

def ams5915_types : List AMS5915_TYPEDEF_T :=
  [ { pmin := 0, pmax := 5 },
    { pmin := 0, pmax := 10 },
    { pmin := -5, pmax := 5 },
    { pmin := -10, pmax := 10 },
    { pmin := 0, pmax := 20 },
    { pmin := 0, pmax := 50 },
    { pmin := 0, pmax := 100 },
    { pmin := -20, pmax := 20 },
    { pmin := -50, pmax := 50 },
    { pmin := -100, pmax := 100 },
    { pmin := 0, pmax := 200 },
    { pmin := 0, pmax := 350 },
    { pmin := 0, pmax := 1000 },
    { pmin := 0, pmax := 2000 },
    { pmin := 0, pmax := 4000 },
    { pmin := 0, pmax := 7000 },
    { pmin := 0, pmax := 10000 },
    { pmin := -200, pmax := 200 },
    { pmin := -350, pmax := 350 },
    { pmin := -1000, pmax := 1000 },
    { pmin := 0, pmax := 1000 },
    { pmin := 700, pmax := 1200 } ]

/-- The `i2c_device_id` table: part name and `driver_data`.  The empty
terminating entry of the C array is not an entry of the table. -/
def ams5915_i2c_id : List (String × Nat) :=
  [ ("ams5915-0005-d", AMS5915_0005_D_TYPE),
    ("ams5915-0010-d", AMS5915_0010_D_TYPE),
    ("ams5915-0005-d-b", AMS5915_0005_D_B_TYPE),
    ("ams5915-0010-d-b", AMS5915_0010_D_B_TYPE),
    ("ams5915-0020-d", AMS5915_0020_D_TYPE),
    ("ams5915-0050-d", AMS5915_0050_D_TYPE),
    ("ams5915-0100-d", AMS5915_0100_D_TYPE),
    ("ams5915-0020-d-b", AMS5915_0020_D_B_TYPE),
    ("ams5915-0050-d-b", AMS5915_0050_D_B_TYPE),
    ("ams5915-0100-d-b", AMS5915_0100_D_B_TYPE),
    ("ams5915-0200-d", AMS5915_0200_D_TYPE),
    ("ams5915-0350-d", AMS5915_0350_D_TYPE),
    ("ams5915-1000-d", AMS5915_1000_D_TYPE),
    ("ams5915-2000-d", AMS5915_2000_D_TYPE),
    ("ams5915-4000-d", AMS5915_4000_D_TYPE),
    ("ams5915-7000-d", AMS5915_7000_D_TYPE),
    ("ams5915-10000-d", AMS5915_10000_D_TYPE),
    ("ams5915-0200-d-b", AMS5915_0200_D_B_TYPE),
    ("ams5915-0350-d-b", AMS5915_0350_D_B_TYPE),
    ("ams5915-1000-d-b", AMS5915_1000_D_B_TYPE),
    ("ams5915-1000-a", AMS5915_1000_A_TYPE),
    ("ams5915-1200-b", AMS5915_1200_B_TYPE) ]

/-! ## The environment -/

/-- Outcome of one `i2c_master_recv(client, buf, 4)`: the returned `int` and
the four bytes of the buffer afterwards, in memory order. -/
structure Recv where
  ret : Int
  b0 : Fin 256
  b1 : Fin 256
  b2 : Fin 256
  b3 : Fin 256
  deriving DecidableEq, Repr

/-- Calls the driver makes into the kernel. -/
inductive Effect where
  | i2c_master_recv (rx : Recv)
  | iio_get_time_ns (ns : Int)
  | iio_push_to_buffers (raw : AMS5915_RAW_T)
  | iio_trigger_notify_done
  | i2c_check_functionality
  | devm_iio_device_alloc
  | dev_err
  | devm_iio_triggered_buffer_setup
  | devm_iio_device_register
  deriving DecidableEq, Repr

/-- What the kernel answers.  The transport and the clock may answer
differently at every call: they are functions of the calls made so far. -/
structure Env where
  /-- Byte order of the host CPU. -/
  big_endian_host : Bool
  i2c_master_recv : List Effect → Recv
  iio_get_time_ns : List Effect → Int
  /-- Does the adapter support `I2C_FUNC_I2C`. -/
  i2c_check_functionality : Bool
  /-- Does `devm_iio_device_alloc` return a device (not `NULL`). -/
  devm_iio_device_alloc : Bool
  devm_iio_triggered_buffer_setup : Int
  devm_iio_device_register : Int
  /-- Indeterminate contents of an uninitialised `AMS5915_RAW_T` local. -/
  stack : AMS5915_RAW_T

/-- The `uint16_t` the host reads from two consecutive bytes of memory. -/
def load16 (big_endian_host : Bool) (m0 m1 : Fin 256) : Nat :=
  if big_endian_host then m0.val * 256 + m1.val else m0.val + m1.val * 256

/-- Byte swap of a 16-bit value, `swab16`. -/
def swab16 (x : Nat) : Nat :=
  (((x &&& 0x00ff) <<< 8) ||| ((x &&& 0xff00) >>> 8)) % 2 ^ 16

/-- Kernel `be16_to_cpu`: identity on a big-endian host, a byte swap on a
little-endian one. -/
def be16_to_cpu (big_endian_host : Bool) (x : Nat) : Nat :=
  if big_endian_host then x else swab16 x

/-! ## `ams5915_read` -/

structure ReadResult where
  ret : Int
  raw : AMS5915_RAW_T
  trace : List Effect

def ams5915_read (env : Env) (t : List Effect) (raw : AMS5915_RAW_T) : ReadResult :=
  let rx := env.i2c_master_recv t
  let t1 := t ++ [Effect.i2c_master_recv rx]
  let ret := rx.ret
  if ret < 0 then
    { ret := ret, raw := raw, trace := t1 }
  else if ret ≠ 4 then
    { ret := - EIO, raw := raw, trace := t1 }
  else
    let buf0 := load16 env.big_endian_host rx.b0 rx.b1
    let buf1 := load16 env.big_endian_host rx.b2 rx.b3
    let press := ((be16_to_cpu env.big_endian_host buf0 >>> PRESS_RAW_SHIFT) &&& PRESS_RAW_MASK) % 2 ^ 32
    let temp := ((be16_to_cpu env.big_endian_host buf1 >>> TEMP_RAW_SHIFT) &&& TEMP_RAW_MASK) % 2 ^ 32
    let ns := env.iio_get_time_ns t1
    { ret := 0,
      raw := { press := press, temp := temp, timestamp := ns },
      trace := t1 ++ [Effect.iio_get_time_ns ns] }

/-! ## `ams5915_trigger_handler` -/

structure HandlerResult where
  ret : Int
  trace : List Effect

def ams5915_trigger_handler (env : Env) (t : List Effect) : HandlerResult :=
  let r := ams5915_read env t env.stack
  if r.ret < 0 then
    { ret := IRQ_HANDLED, trace := r.trace ++ [Effect.iio_trigger_notify_done] }
  else
    { ret := IRQ_HANDLED,
      trace := r.trace ++ [Effect.iio_push_to_buffers r.raw, Effect.iio_trigger_notify_done] }

/-! ## `ams5915_read_raw` -/

structure QueryResult where
  ret : Int
  val : Int
  val2 : Int
  trace : List Effect

def ams5915_read_raw (env : Env) (data : AMS5915_DATA_T) (t : List Effect)
    (chan_type : iio_chan_type) (val val2 : Int) (info : iio_chan_info) : QueryResult :=
  match info with
  | .IIO_CHAN_INFO_RAW =>
    let r := ams5915_read env t env.stack
    if r.ret ≠ 0 then
      { ret := r.ret, val := val, val2 := val2, trace := r.trace }
    else
      match chan_type with
      | .IIO_TEMP =>
        { ret := IIO_VAL_INT, val := s32 r.raw.temp, val2 := val2, trace := r.trace }
      | .IIO_PRESSURE =>
        { ret := IIO_VAL_INT, val := s32 r.raw.press, val2 := val2, trace := r.trace }
      | .other _ =>
        { ret := - EINVAL, val := val, val2 := val2, trace := r.trace }
  | .IIO_CHAN_INFO_PROCESSED =>
    let r := ams5915_read env t env.stack
    if r.ret ≠ 0 then
      { ret := r.ret, val := val, val2 := val2, trace := r.trace }
    else
      match chan_type with
      | .IIO_TEMP =>
        { ret := IIO_VAL_INT,
          val := s32 (((r.raw.temp * u32 TEMP_SCALE_MUL) % 2 ^ 32 / u32 TEMP_SCALE_DIV
                        + u32 TEMP_OFFSET) % 2 ^ 32),
          val2 := val2, trace := r.trace }
      | .IIO_PRESSURE =>
        { ret := IIO_VAL_FRACTIONAL,
          val := s32 (((r.raw.press * u32 data.press_scale_mul) % 2 ^ 32
                        + u32 data.press_offset) % 2 ^ 32),
          val2 := PRESS_SCALE_DIV_KPA, trace := r.trace }
      | .other _ =>
        { ret := - EINVAL, val := val, val2 := val2, trace := r.trace }
  | .IIO_CHAN_INFO_SCALE =>
    match chan_type with
    | .IIO_TEMP =>
      { ret := IIO_VAL_FRACTIONAL, val := TEMP_SCALE_MUL, val2 := TEMP_SCALE_DIV, trace := t }
    | .IIO_PRESSURE =>
      { ret := IIO_VAL_FRACTIONAL, val := data.press_scale_mul, val2 := PRESS_SCALE_DIV_KPA,
        trace := t }
    | .other _ =>
      { ret := - EINVAL, val := val, val2 := val2, trace := t }
  | .IIO_CHAN_INFO_OFFSET =>
    match chan_type with
    | .IIO_TEMP =>
      { ret := IIO_VAL_INT, val := TEMP_OFFSET, val2 := val2, trace := t }
    | .IIO_PRESSURE =>
      { ret := IIO_VAL_FRACTIONAL, val := data.press_offset, val2 := PRESS_SCALE_DIV_KPA,
        trace := t }
    | .other _ =>
      { ret := - EINVAL, val := val, val2 := val2, trace := t }
  | .other _ =>
    { ret := - EINVAL, val := val, val2 := val2, trace := t }

/-! ## `ams5915_i2c_probe` -/

/-- The entry `ams5915_types[type_id]`, for a `type_id` that passed the range
check of probe. -/
def ams5915_types_at (type_id : Int) (h : ¬ (type_id < 0 ∨ type_id ≥ (AMS5915_TYPE_COUNT : Int))) :
    AMS5915_TYPEDEF_T :=
  ams5915_types.get ⟨type_id.toNat, by
    have hlen : ams5915_types.length = 22 := rfl
    rw [hlen]
    simp only [AMS5915_TYPE_COUNT] at h
    omega⟩

structure ProbeResult where
  ret : Int
  /-- The private data of the allocated device, once probe has filled it in. -/
  data : Option AMS5915_DATA_T
  trace : List Effect

def ams5915_i2c_probe (env : Env) (driver_data : Nat) (t : List Effect) : ProbeResult :=
  if h : s32 driver_data < 0 ∨ s32 driver_data ≥ (AMS5915_TYPE_COUNT : Int) then
    { ret := - EINVAL, data := none, trace := t }
  else
    let t1 := t ++ [Effect.i2c_check_functionality]
    if !env.i2c_check_functionality then
      { ret := - EOPNOTSUPP, data := none, trace := t1 }
    else
      let t2 := t1 ++ [Effect.devm_iio_device_alloc]
      if !env.devm_iio_device_alloc then
        { ret := - ENOMEM, data := none, trace := t2 }
      else
        let type := ams5915_types_at (s32 driver_data) h
        let press_scale_mul := int32 (type.pmax - type.pmin)
        let press_offset :=
          int32 (int32 (type.pmin * PRESS_SCALE_DIV) - int32 (PRESS_RAW_MIN * press_scale_mul))
        let data : AMS5915_DATA_T :=
          { press_scale_mul := press_scale_mul, press_offset := press_offset }
        let r := ams5915_read env t2 env.stack
        if r.ret < 0 then
          { ret := r.ret, data := some data, trace := r.trace ++ [Effect.dev_err] }
        else
          let t3 := r.trace ++ [Effect.devm_iio_triggered_buffer_setup]
          if env.devm_iio_triggered_buffer_setup < 0 then
            { ret := env.devm_iio_triggered_buffer_setup, data := some data,
              trace := t3 ++ [Effect.dev_err] }
          else
            let t4 := t3 ++ [Effect.devm_iio_device_register]
            if env.devm_iio_device_register < 0 then
              { ret := env.devm_iio_device_register, data := some data,
                trace := t4 ++ [Effect.dev_err] }
            else
              { ret := 0, data := some data, trace := t4 }

/-! ## Sample inputs -/

/-- An environment on a host of the given byte order whose transport answers
every receive with `rx`, and in which every other kernel call succeeds. -/
def constEnv (big_endian_host : Bool) (rx : Recv) : Env :=
  { big_endian_host := big_endian_host,
    i2c_master_recv := fun _ => rx,
    iio_get_time_ns := fun _ => 1000,
    i2c_check_functionality := true,
    devm_iio_device_alloc := true,
    devm_iio_triggered_buffer_setup := 0,
    devm_iio_device_register := 0,
    stack := { press := 77, temp := 88, timestamp := 99 } }

/-- The samples handed to `iio_push_to_buffers` in a trace, oldest first. -/
def pushed : List Effect → List AMS5915_RAW_T
  | [] => []
  | Effect.iio_push_to_buffers raw :: rest => raw :: pushed rest
  | _ :: rest => pushed rest

/-- The calibration of spec section 3 for a table entry, in exact integers:
`pressure_scale_mul = pmax - pmin` and
`pressure_offset = pmin * 13107 - 1638 * pressure_scale_mul`.  The lemmas
below compare it with what `ams5915_i2c_probe` computes in C `int`s. -/
def calibration (ty : AMS5915_TYPEDEF_T) : AMS5915_DATA_T :=
  { press_scale_mul := ty.pmax - ty.pmin,
    press_offset := ty.pmin * 13107 - 1638 * (ty.pmax - ty.pmin) }

/-- Number of `i2c_master_recv` calls in a trace. -/
def recv_calls : List Effect → Nat
  | [] => 0
  | Effect.i2c_master_recv _ :: rest => recv_calls rest + 1
  | _ :: rest => recv_calls rest

/-- An environment on a little-endian host whose transport answers its k-th
receive (counted from 0) with `script[k]`, and with a transport error `-121`
once the script is used up; every other kernel call succeeds. -/
def scriptedEnv (script : List Recv) : Env :=
  { big_endian_host := false,
    i2c_master_recv := fun t => script.getD (recv_calls t) ⟨-121, 0, 0, 0, 0⟩,
    iio_get_time_ns := fun t => 1000 + t.length,
    i2c_check_functionality := true,
    devm_iio_device_alloc := true,
    devm_iio_triggered_buffer_setup := 0,
    devm_iio_device_register := 0,
    stack := { press := 77, temp := 88, timestamp := 99 } }

/-! ## Lemmas on machine integers and bit fields -/

theorem u32_cast (x : Int) : ((u32 x : Nat) : Int) = x % 2 ^ 32 := by
  unfold u32
  exact Int.toNat_of_nonneg (Int.emod_nonneg _ (by norm_num))

theorem s32_u32 (x : Int) (hlo : -2 ^ 31 ≤ x) (hhi : x < 2 ^ 31) : s32 (u32 x) = x := by
  have h := u32_cast x
  unfold s32
  split <;> omega

theorem s32_of_lt (n : Nat) (h : n < 2 ^ 31) : s32 n = n := by
  unfold s32
  split <;> omega

theorem wrap_mul_add (p : Nat) (m o : Int) :
    ((p * u32 m) % 2 ^ 32 + u32 o) % 2 ^ 32 = u32 ((p : Int) * m + o) := by
  apply Int.ofNat_inj.mp
  push_cast
  rw [u32_cast, u32_cast, u32_cast]
  simp [Int.add_emod, Int.mul_emod]

theorem shiftRight_and (a b k : Nat) : (a &&& b) >>> k = (a >>> k) &&& (b >>> k) := by
  apply Nat.eq_of_testBit_eq
  intro i
  simp

theorem swab16_load16 (m0 m1 : Fin 256) :
    swab16 (m0.val + m1.val * 256) = m0.val * 256 + m1.val := by
  have h0 := m0.isLt
  have h1 := m1.isLt
  unfold swab16
  have e1 : (m0.val + m1.val * 256) &&& 0x00ff = m0.val := by
    have hm : (0x00ff : Nat) = 2 ^ 8 - 1 := by norm_num
    rw [hm, Nat.and_pow_two_sub_one_eq_mod]; omega
  have e2 : ((m0.val + m1.val * 256) &&& 0xff00) >>> 8 = m1.val := by
    rw [shiftRight_and]
    have hm : (0xff00 : Nat) >>> 8 = 2 ^ 8 - 1 := by decide
    rw [hm, Nat.and_pow_two_sub_one_eq_mod, Nat.shiftRight_eq_div_pow]; omega
  have e3 : m0.val <<< 8 ||| m1.val = 2 ^ 8 * m0.val + m1.val := by
    rw [Nat.mul_add_lt_is_or (by omega : m1.val < 2 ^ 8), Nat.shiftLeft_eq, Nat.mul_comm]
  rw [e1, e2, e3]
  omega

/-- On either host, `be16_to_cpu` of a loaded word is the big-endian value of
its two bytes. -/
theorem be16_to_cpu_load16 (be : Bool) (m0 m1 : Fin 256) :
    be16_to_cpu be (load16 be m0 m1) = m0.val * 256 + m1.val := by
  cases be
  · simp only [be16_to_cpu, load16, Bool.false_eq_true, if_false]
    exact swab16_load16 m0 m1
  · simp [be16_to_cpu, load16]

theorem press_mask_eq (w : Nat) : (w >>> PRESS_RAW_SHIFT) &&& PRESS_RAW_MASK = w % 2 ^ 14 := by
  have h : PRESS_RAW_MASK = 2 ^ 14 - 1 := by decide
  rw [h, Nat.and_pow_two_sub_one_eq_mod]
  simp [PRESS_RAW_SHIFT]

theorem temp_mask_eq (w : Nat) :
    (w >>> TEMP_RAW_SHIFT) &&& TEMP_RAW_MASK = w / 2 ^ 5 % 2 ^ 11 := by
  have h : TEMP_RAW_MASK = 2 ^ 11 - 1 := by decide
  rw [h, Nat.and_pow_two_sub_one_eq_mod, Nat.shiftRight_eq_div_pow]
  rfl

theorem decode_press (be : Bool) (m0 m1 : Fin 256) :
    ((be16_to_cpu be (load16 be m0 m1) >>> PRESS_RAW_SHIFT) &&& PRESS_RAW_MASK) % 2 ^ 32
      = (m0.val * 256 + m1.val) % 16384 := by
  rw [be16_to_cpu_load16, press_mask_eq]
  omega

theorem decode_temp (be : Bool) (m2 m3 : Fin 256) :
    ((be16_to_cpu be (load16 be m2 m3) >>> TEMP_RAW_SHIFT) &&& TEMP_RAW_MASK) % 2 ^ 32
      = (m2.val * 256 + m3.val) / 32 % 2048 := by
  rw [be16_to_cpu_load16, temp_mask_eq]
  omega

/-! ## Lemmas on `ams5915_read` -/

/-- What `ams5915_read` returns when the transport delivered all 4 bytes. -/
theorem ams5915_read_full (env : Env) (t : List Effect) (raw : AMS5915_RAW_T)
    (b0 b1 b2 b3 : Fin 256) (hrx : env.i2c_master_recv t = ⟨4, b0, b1, b2, b3⟩) :
    ams5915_read env t raw =
      { ret := 0,
        raw := { press := (b0.val * 256 + b1.val) % 16384,
                 temp := (b2.val * 256 + b3.val) / 32 % 2048,
                 timestamp := env.iio_get_time_ns (t ++ [Effect.i2c_master_recv ⟨4, b0, b1, b2, b3⟩]) },
        trace := t ++ [Effect.i2c_master_recv ⟨4, b0, b1, b2, b3⟩] ++
          [Effect.iio_get_time_ns
            (env.iio_get_time_ns (t ++ [Effect.i2c_master_recv ⟨4, b0, b1, b2, b3⟩]))] } := by
  simp only [ams5915_read, hrx, decode_press, decode_temp]
  simp

/-- What `ams5915_read` returns when the transport did not deliver 4 bytes. -/
theorem ams5915_read_fail (env : Env) (t : List Effect) (raw : AMS5915_RAW_T)
    (h : (env.i2c_master_recv t).ret ≠ 4) :
    ams5915_read env t raw =
      { ret := if (env.i2c_master_recv t).ret < 0 then (env.i2c_master_recv t).ret else - EIO,
        raw := raw,
        trace := t ++ [Effect.i2c_master_recv (env.i2c_master_recv t)] } := by
  simp only [ams5915_read]
  split <;> simp [h]

/-- The fields `ams5915_read` leaves in `raw` after a successful read are
within 14 and 11 bits. -/
theorem ams5915_read_range (env : Env) (t : List Effect) (raw : AMS5915_RAW_T)
    (h : (ams5915_read env t raw).ret = 0) :
    (ams5915_read env t raw).raw.press ≤ 16383 ∧ (ams5915_read env t raw).raw.temp ≤ 2047 := by
  by_cases h4 : (env.i2c_master_recv t).ret = 4
  · have hrx : env.i2c_master_recv t = ⟨4, (env.i2c_master_recv t).b0, (env.i2c_master_recv t).b1,
        (env.i2c_master_recv t).b2, (env.i2c_master_recv t).b3⟩ := by
      rw [← h4]
    rw [ams5915_read_full env t raw _ _ _ _ hrx]
    constructor
    · show _ % 16384 ≤ 16383
      omega
    · show _ % 2048 ≤ 2047
      omega
  · rw [ams5915_read_fail env t raw h4] at h
    simp only [ EIO] at h
    split at h <;> omega

/-! ## Lemmas on the variant table and probe -/

theorem types_calibration_exact : ∀ ty ∈ ams5915_types,
    int32 (ty.pmax - ty.pmin) = ty.pmax - ty.pmin ∧
    int32 (int32 (ty.pmin * PRESS_SCALE_DIV) - int32 (PRESS_RAW_MIN * (ty.pmax - ty.pmin)))
      = ty.pmin * 13107 - 1638 * (ty.pmax - ty.pmin) := by
  decide

theorem types_calibration_bounds : ∀ ty ∈ ams5915_types,
    0 ≤ ty.pmax - ty.pmin ∧
    -2 ^ 31 ≤ ty.pmin * 13107 - 1638 * (ty.pmax - ty.pmin) ∧
    16383 * (ty.pmax - ty.pmin) + (ty.pmin * 13107 - 1638 * (ty.pmax - ty.pmin)) < 2 ^ 31 := by
  decide

theorem ams5915_types_at_mem (i : Int) (h : ¬ (i < 0 ∨ i ≥ (AMS5915_TYPE_COUNT : Int))) :
    ams5915_types_at i h ∈ ams5915_types ∧ ams5915_types[i.toNat]? = some (ams5915_types_at i h) := by
  unfold ams5915_types_at
  constructor
  · exact List.get_mem _ _ _
  · rw [List.getElem?_eq_some]
    have hlen : ams5915_types.length = 22 := rfl
    simp only [AMS5915_TYPE_COUNT] at h
    exact ⟨by omega, rfl⟩

/-- The private data probe leaves behind: none when the variant is rejected
or no device could be allocated, otherwise the calibration of the entry
`ams5915_types[type_id]`. -/
theorem probe_data (env : Env) (t : List Effect) (driver_data : Nat) :
    (ams5915_i2c_probe env driver_data t).data =
      if s32 driver_data < 0 ∨ s32 driver_data ≥ (AMS5915_TYPE_COUNT : Int) then none
      else if env.i2c_check_functionality = false then none
      else if env.devm_iio_device_alloc = false then none
      else (ams5915_types[(s32 driver_data).toNat]?).map calibration := by
  unfold ams5915_i2c_probe
  by_cases hr : s32 driver_data < 0 ∨ s32 driver_data ≥ (AMS5915_TYPE_COUNT : Int)
  · rw [dif_pos hr, if_pos hr]
  · rw [dif_neg hr, if_neg hr]
    have hmem := ams5915_types_at_mem (s32 driver_data) hr
    have hcal := types_calibration_exact _ hmem.1
    cases hf : env.i2c_check_functionality
    · simp
    · cases ha : env.devm_iio_device_alloc
      · simp
      · simp only [hcal.1, hcal.2, hmem.2, Option.map, calibration]
        simp
        split_ifs <;> rfl

theorem probe_data_some (env : Env) (t : List Effect) (driver_data : Nat) (d : AMS5915_DATA_T)
    (hd : (ams5915_i2c_probe env driver_data t).data = some d) :
    ∃ ty ∈ ams5915_types, d = calibration ty := by
  rw [probe_data] at hd
  split_ifs at hd
  cases hty : ams5915_types[(s32 driver_data).toNat]? with
  | none => rw [hty] at hd; simp at hd
  | some ty =>
    rw [hty] at hd
    simp at hd
    exact ⟨ty, List.getElem?_mem hty, hd.symm⟩

/-- The unsigned multiply-add of the processed pressure, read back as `int`,
is the exact integer for every table entry and every 14-bit raw value. -/
theorem processed_press_exact (ty : AMS5915_TYPEDEF_T) (hmem : ty ∈ ams5915_types)
    (p : Nat) (hp : p ≤ 16383) :
    s32 (((p * u32 (calibration ty).press_scale_mul) % 2 ^ 32
          + u32 (calibration ty).press_offset) % 2 ^ 32)
      = (p : Int) * (calibration ty).press_scale_mul + (calibration ty).press_offset := by
  obtain ⟨h0, hlo, hhi⟩ := types_calibration_bounds ty hmem
  rw [wrap_mul_add]
  have hp0 : (0 : Int) ≤ (p : Int) := Int.ofNat_nonneg p
  have hp1 : (p : Int) ≤ 16383 := by exact_mod_cast hp
  simp only [calibration]
  apply s32_u32
  · nlinarith
  · nlinarith

/-! ## Lemmas on `ams5915_trigger_handler` and `ams5915_read_raw` -/

theorem ams5915_read_ret_nonpos (env : Env) (t : List Effect) (raw : AMS5915_RAW_T) :
    (ams5915_read env t raw).ret ≤ 0 := by
  simp only [ams5915_read, EIO]
  split_ifs <;> simp only [] <;> omega

/-- A capture whose receive delivered 4 bytes pushes the decoded sample and
then notifies the trigger. -/
theorem trigger_handler_full (env : Env) (t : List Effect) (b0 b1 b2 b3 : Fin 256)
    (hrx : env.i2c_master_recv t = ⟨4, b0, b1, b2, b3⟩) :
    (ams5915_trigger_handler env t).trace =
      t ++ [Effect.i2c_master_recv ⟨4, b0, b1, b2, b3⟩,
            Effect.iio_get_time_ns
              (env.iio_get_time_ns (t ++ [Effect.i2c_master_recv ⟨4, b0, b1, b2, b3⟩])),
            Effect.iio_push_to_buffers (ams5915_read env t env.stack).raw,
            Effect.iio_trigger_notify_done] := by
  unfold ams5915_trigger_handler
  simp only [ams5915_read_full env t env.stack b0 b1 b2 b3 hrx]
  simp

/-- A capture whose receive did not deliver 4 bytes only notifies the trigger. -/
theorem trigger_handler_fail (env : Env) (t : List Effect)
    (h : (env.i2c_master_recv t).ret ≠ 4) :
    (ams5915_trigger_handler env t).trace =
      t ++ [Effect.i2c_master_recv (env.i2c_master_recv t), Effect.iio_trigger_notify_done] := by
  unfold ams5915_trigger_handler
  have hneg : (ams5915_read env t env.stack).ret < 0 := by
    rw [ams5915_read_fail env t env.stack h]
    simp only [ EIO]
    split <;> omega
  rw [if_pos hneg, ams5915_read_fail env t env.stack h]
  simp

/-- The calibration stored by probe for a cataloged variant is the exact
calibration of its table entry. -/
theorem probe_data_of_variant (env : Env) (t : List Effect) (driver_data : Nat)
    (ty : AMS5915_TYPEDEF_T) (d : AMS5915_DATA_T)
    (hty : ams5915_types[driver_data]? = some ty)
    (hd : (ams5915_i2c_probe env driver_data t).data = some d) :
    d = calibration ty := by
  have hlt : driver_data < 22 := (List.getElem?_eq_some.mp hty).1
  have hs : s32 driver_data = driver_data := s32_of_lt driver_data (by omega)
  rw [probe_data, hs] at hd
  split_ifs at hd
  simp only [Int.toNat_ofNat, hty, Option.map_some', Option.some.injEq] at hd
  exact hd.symm

/-- A processed-mode pressure query after a full receive. -/
theorem read_raw_processed_press (env : Env) (data : AMS5915_DATA_T) (t : List Effect)
    (val val2 : Int) (b0 b1 b2 b3 : Fin 256)
    (hrx : env.i2c_master_recv t = ⟨4, b0, b1, b2, b3⟩) :
    (ams5915_read_raw env data t .IIO_PRESSURE val val2 .IIO_CHAN_INFO_PROCESSED).ret
      = IIO_VAL_FRACTIONAL ∧
    (ams5915_read_raw env data t .IIO_PRESSURE val val2 .IIO_CHAN_INFO_PROCESSED).val
      = s32 ((((b0.val * 256 + b1.val) % 16384 * u32 data.press_scale_mul) % 2 ^ 32
              + u32 data.press_offset) % 2 ^ 32) ∧
    (ams5915_read_raw env data t .IIO_PRESSURE val val2 .IIO_CHAN_INFO_PROCESSED).val2
      = PRESS_SCALE_DIV_KPA := by
  simp only [ams5915_read_raw, ams5915_read_full env t env.stack b0 b1 b2 b3 hrx]
  simp

/-- A processed-mode temperature query after a full receive. -/
theorem read_raw_processed_temp (env : Env) (data : AMS5915_DATA_T) (t : List Effect)
    (val val2 : Int) (b0 b1 b2 b3 : Fin 256)
    (hrx : env.i2c_master_recv t = ⟨4, b0, b1, b2, b3⟩) :
    (ams5915_read_raw env data t .IIO_TEMP val val2 .IIO_CHAN_INFO_PROCESSED).ret
      = IIO_VAL_INT ∧
    (ams5915_read_raw env data t .IIO_TEMP val val2 .IIO_CHAN_INFO_PROCESSED).val
      = s32 ((((b2.val * 256 + b3.val) / 32 % 2048 * u32 TEMP_SCALE_MUL) % 2 ^ 32
              / u32 TEMP_SCALE_DIV + u32 TEMP_OFFSET) % 2 ^ 32) := by
  simp only [ams5915_read_raw, ams5915_read_full env t env.stack b0 b1 b2 b3 hrx]
  simp

/-- The `uint32_t` evaluation of the processed temperature, read back as
`int`, for an 11-bit raw value. -/
theorem processed_temp_exact (x : Nat) (hx : x ≤ 2047) :
    s32 (((x * u32 TEMP_SCALE_MUL) % 2 ^ 32 / u32 TEMP_SCALE_DIV + u32 TEMP_OFFSET) % 2 ^ 32)
      = (x : Int) * 200000 / 2048 + (-50000) := by
  have h1 : u32 TEMP_SCALE_MUL = 200000 := by decide
  have h2 : u32 TEMP_SCALE_DIV = 2048 := by decide
  have h3 : u32 TEMP_OFFSET = 4294917296 := by decide
  rw [h1, h2, h3, Nat.mod_eq_of_lt (by omega : x * 200000 < 2 ^ 32)]
  have hq : x * 200000 / 2048 ≤ 199902 := by omega
  have hc : ((x * 200000 / 2048 : Nat) : Int) = (x : Int) * 200000 / 2048 := by
    push_cast
    rfl
  rw [← hc]
  generalize x * 200000 / 2048 = q at hq
  unfold s32
  split <;> omega

/-- A processed-mode pressure query with the exact calibration of a table
entry: the numerator is the exact integer `press * scale + offset`. -/
theorem read_raw_processed_press_calibrated (ty : AMS5915_TYPEDEF_T)
    (hmem : ty ∈ ams5915_types) (env : Env) (t : List Effect) (val val2 : Int)
    (b0 b1 b2 b3 : Fin 256) (hrx : env.i2c_master_recv t = ⟨4, b0, b1, b2, b3⟩) :
    (ams5915_read env t env.stack).raw.press = (b0.val * 256 + b1.val) % 16384 ∧
    (ams5915_read_raw env (calibration ty) t .IIO_PRESSURE val val2
      .IIO_CHAN_INFO_PROCESSED).ret = IIO_VAL_FRACTIONAL ∧
    (ams5915_read_raw env (calibration ty) t .IIO_PRESSURE val val2
      .IIO_CHAN_INFO_PROCESSED).val
      = ((ams5915_read env t env.stack).raw.press : Int) * (calibration ty).press_scale_mul
        + (calibration ty).press_offset ∧
    (ams5915_read_raw env (calibration ty) t .IIO_PRESSURE val val2
      .IIO_CHAN_INFO_PROCESSED).val2 = 131070 := by
  obtain ⟨hret, hval, hval2⟩ :=
    read_raw_processed_press env (calibration ty) t val val2 b0 b1 b2 b3 hrx
  have hpress : (ams5915_read env t env.stack).raw.press = (b0.val * 256 + b1.val) % 16384 := by
    rw [ams5915_read_full env t env.stack b0 b1 b2 b3 hrx]
  refine ⟨hpress, hret, ?_, ?_⟩
  · rw [hval, hpress]
    exact processed_press_exact ty hmem _ (by omega)
  · rw [hval2]
    decide

/-! ## Lemmas on traces -/

theorem recv_calls_append (t u : List Effect) :
    recv_calls (t ++ u) = recv_calls t + recv_calls u := by
  induction t with
  | nil => simp [recv_calls]
  | cons e rest ih =>
    cases e <;> simp [recv_calls, ih]
    omega

theorem pushed_append (t u : List Effect) : pushed (t ++ u) = pushed t ++ pushed u := by
  induction t with
  | nil => simp [pushed]
  | cons e rest ih =>
    cases e <;> simp [pushed, ih]

/-- Every call of `ams5915_read` extends the trace and makes exactly one
receive. -/
theorem ams5915_read_trace (env : Env) (t : List Effect) (raw : AMS5915_RAW_T) :
    ∃ u, (ams5915_read env t raw).trace = t ++ u ∧ recv_calls u = 1 ∧
      u.head? = some (Effect.i2c_master_recv (env.i2c_master_recv t)) := by
  simp only [ams5915_read]
  split_ifs
  · exact ⟨[Effect.i2c_master_recv (env.i2c_master_recv t)], rfl, rfl, rfl⟩
  · exact ⟨[Effect.i2c_master_recv (env.i2c_master_recv t)], rfl, rfl, rfl⟩
  · exact ⟨[Effect.i2c_master_recv (env.i2c_master_recv t),
      Effect.iio_get_time_ns
        (env.iio_get_time_ns (t ++ [Effect.i2c_master_recv (env.i2c_master_recv t)]))],
      by simp, rfl, rfl⟩

theorem ams5915_read_recv_calls (env : Env) (t : List Effect) (raw : AMS5915_RAW_T) :
    recv_calls (ams5915_read env t raw).trace = recv_calls t + 1 := by
  obtain ⟨u, hu, hc, _⟩ := ams5915_read_trace env t raw
  rw [hu, recv_calls_append, hc]

/-- The 4 bytes of a receive that returned 4. -/
theorem recv_eta (rx : Recv) (h : rx.ret = 4) : rx = ⟨4, rx.b0, rx.b1, rx.b2, rx.b3⟩ := by
  rw [← h]

/-- A failed read returns a negative error. -/
theorem ams5915_read_fail_neg (env : Env) (t : List Effect) (raw : AMS5915_RAW_T)
    (h : (env.i2c_master_recv t).ret ≠ 4) : (ams5915_read env t raw).ret < 0 := by
  rw [ams5915_read_fail env t raw h]
  simp only [ EIO]
  split <;> omega

/-- The return value and the decoded fields of `ams5915_read` are decided by
the outcome of its receive alone. -/
theorem ams5915_read_congr (env env2 : Env) (t t2 : List Effect) (raw raw2 : AMS5915_RAW_T)
    (h : env.i2c_master_recv t = env2.i2c_master_recv t2) :
    (ams5915_read env t raw).ret = (ams5915_read env2 t2 raw2).ret ∧
    ((ams5915_read env t raw).ret = 0 →
      (ams5915_read env t raw).raw.press = (ams5915_read env2 t2 raw2).raw.press ∧
      (ams5915_read env t raw).raw.temp = (ams5915_read env2 t2 raw2).raw.temp) := by
  by_cases h4 : (env.i2c_master_recv t).ret = 4
  · have hrx := recv_eta _ h4
    have hrx2 := hrx
    rw [h] at hrx2
    have e1 := ams5915_read_full env t raw _ _ _ _ hrx
    have e2 := ams5915_read_full env2 t2 raw2 _ _ _ _ hrx2
    rw [e1, e2, h]
    exact ⟨rfl, fun _ => ⟨rfl, rfl⟩⟩
  · have h4b : (env2.i2c_master_recv t2).ret ≠ 4 := by rw [← h]; exact h4
    have hneg := ams5915_read_fail_neg env t raw h4
    rw [ams5915_read_fail env t raw h4, ams5915_read_fail env2 t2 raw2 h4b, h] at *
    exact ⟨rfl, fun h0 => by dsimp only at h0 hneg; omega⟩

/-- A raw-mode or processed-mode query whose read failed returns the read's
error and leaves `val` and `val2` alone, on every channel. -/
theorem read_raw_read_failed (env : Env) (data : AMS5915_DATA_T) (t : List Effect)
    (chan_type : iio_chan_type) (val val2 : Int) (info : iio_chan_info)
    (hinfo : info = .IIO_CHAN_INFO_RAW ∨ info = .IIO_CHAN_INFO_PROCESSED)
    (h : (env.i2c_master_recv t).ret ≠ 4) :
    ams5915_read_raw env data t chan_type val val2 info =
      { ret := (ams5915_read env t env.stack).ret, val := val, val2 := val2,
        trace := (ams5915_read env t env.stack).trace } := by
  have hneg := ams5915_read_fail_neg env t env.stack h
  have hne : (ams5915_read env t env.stack).ret ≠ 0 := by omega
  rcases hinfo with rfl | rfl <;> simp only [ams5915_read_raw, if_pos hne]

/-- A raw-mode or processed-mode query on a channel that is neither pressure
nor temperature, after a read that succeeded. -/
theorem read_raw_other_read_ok (env : Env) (data : AMS5915_DATA_T) (t : List Effect)
    (code : Nat) (val val2 : Int) (info : iio_chan_info)
    (hinfo : info = .IIO_CHAN_INFO_RAW ∨ info = .IIO_CHAN_INFO_PROCESSED)
    (h : (env.i2c_master_recv t).ret = 4) :
    ams5915_read_raw env data t (.other code) val val2 info =
      { ret := - EINVAL, val := val, val2 := val2,
        trace := (ams5915_read env t env.stack).trace } := by
  have h0 : (ams5915_read env t env.stack).ret = 0 := by
    rw [ams5915_read_full env t env.stack _ _ _ _ (recv_eta _ h)]
  have hne : ¬ (ams5915_read env t env.stack).ret ≠ 0 := by omega
  rcases hinfo with rfl | rfl <;> simp only [ams5915_read_raw, if_neg hne]

/-- A raw-mode query on the pressure or temperature channel after a full
receive. -/
theorem read_raw_raw_read_ok (env : Env) (data : AMS5915_DATA_T) (t : List Effect)
    (val val2 : Int) (h : (env.i2c_master_recv t).ret = 4) :
    ams5915_read_raw env data t .IIO_PRESSURE val val2 .IIO_CHAN_INFO_RAW =
      { ret := IIO_VAL_INT, val := ((ams5915_read env t env.stack).raw.press : Int),
        val2 := val2, trace := (ams5915_read env t env.stack).trace } ∧
    ams5915_read_raw env data t .IIO_TEMP val val2 .IIO_CHAN_INFO_RAW =
      { ret := IIO_VAL_INT, val := ((ams5915_read env t env.stack).raw.temp : Int),
        val2 := val2, trace := (ams5915_read env t env.stack).trace } := by
  have h0 : (ams5915_read env t env.stack).ret = 0 := by
    rw [ams5915_read_full env t env.stack _ _ _ _ (recv_eta _ h)]
  have hne : ¬ (ams5915_read env t env.stack).ret ≠ 0 := by omega
  have hr := ams5915_read_range env t env.stack h0
  simp only [ams5915_read_raw, if_neg hne]
  rw [s32_of_lt _ (by omega), s32_of_lt _ (by omega)]
  exact ⟨rfl, rfl⟩

/-- The return code and the two output values of a query are decided by the
outcome of the receive it makes (if it makes one), whatever the rest of the
environment and the earlier history. -/
theorem read_raw_congr (env env2 : Env) (data : AMS5915_DATA_T) (t t2 : List Effect)
    (chan_type : iio_chan_type) (val val2 : Int) (info : iio_chan_info)
    (h : env.i2c_master_recv t = env2.i2c_master_recv t2) :
    (ams5915_read_raw env data t chan_type val val2 info).ret
      = (ams5915_read_raw env2 data t2 chan_type val val2 info).ret ∧
    (ams5915_read_raw env data t chan_type val val2 info).val
      = (ams5915_read_raw env2 data t2 chan_type val val2 info).val ∧
    (ams5915_read_raw env data t chan_type val val2 info).val2
      = (ams5915_read_raw env2 data t2 chan_type val val2 info).val2 := by
  by_cases h4 : (env.i2c_master_recv t).ret = 4
  · have hrx := recv_eta _ h4
    have hrx2 := hrx
    rw [h] at hrx2
    have e1 := ams5915_read_full env t env.stack _ _ _ _ hrx
    have e2 := ams5915_read_full env2 t2 env2.stack _ _ _ _ hrx2
    cases info <;> cases chan_type <;> simp [ams5915_read_raw, e1, e2, h]
  · have h4b : (env2.i2c_master_recv t2).ret ≠ 4 := by rw [← h]; exact h4
    have hc := (ams5915_read_congr env env2 t t2 env.stack env2.stack h).1
    cases info
    · rw [read_raw_read_failed env data t chan_type val val2 _ (Or.inl rfl) h4,
        read_raw_read_failed env2 data t2 chan_type val val2 _ (Or.inl rfl) h4b]
      exact ⟨hc, rfl, rfl⟩
    · rw [read_raw_read_failed env data t chan_type val val2 _ (Or.inr rfl) h4,
        read_raw_read_failed env2 data t2 chan_type val val2 _ (Or.inr rfl) h4b]
      exact ⟨hc, rfl, rfl⟩
    all_goals cases chan_type <;> exact ⟨rfl, rfl, rfl⟩

/-- A raw-mode or processed-mode query makes exactly the one receive of its
`ams5915_read`. -/
theorem read_raw_trace_reading (env : Env) (data : AMS5915_DATA_T) (t : List Effect)
    (chan_type : iio_chan_type) (val val2 : Int) (info : iio_chan_info)
    (hinfo : info = .IIO_CHAN_INFO_RAW ∨ info = .IIO_CHAN_INFO_PROCESSED) :
    (ams5915_read_raw env data t chan_type val val2 info).trace
      = (ams5915_read env t env.stack).trace := by
  rcases hinfo with rfl | rfl <;> cases chan_type <;>
    simp only [ams5915_read_raw] <;> split_ifs <;> rfl

/-- A scale-mode, offset-mode or unknown-mode query leaves the trace alone. -/
theorem read_raw_trace_constant (env : Env) (data : AMS5915_DATA_T) (t : List Effect)
    (chan_type : iio_chan_type) (val val2 : Int) (info : iio_chan_info)
    (hinfo : info ≠ .IIO_CHAN_INFO_RAW ∧ info ≠ .IIO_CHAN_INFO_PROCESSED) :
    (ams5915_read_raw env data t chan_type val val2 info).trace = t := by
  cases info
  · exact absurd rfl hinfo.1
  · exact absurd rfl hinfo.2
  all_goals cases chan_type <;> rfl

/-! ## Lemmas on the control flow of probe -/

/-- A variant identifier outside the table makes probe return `-EINVAL`
before it does anything. -/
theorem probe_out_of_range (env : Env) (driver_data : Nat) (t : List Effect)
    (h : s32 driver_data < 0 ∨ s32 driver_data ≥ (AMS5915_TYPE_COUNT : Int)) :
    ams5915_i2c_probe env driver_data t = { ret := - EINVAL, data := none, trace := t } := by
  unfold ams5915_i2c_probe
  rw [dif_pos h]

/-- Probe with a variant identifier inside the table, step by step. -/
theorem probe_in_range (env : Env) (driver_data : Nat) (t : List Effect)
    (h : ¬ (s32 driver_data < 0 ∨ s32 driver_data ≥ (AMS5915_TYPE_COUNT : Int))) :
    ams5915_i2c_probe env driver_data t =
      if env.i2c_check_functionality = false then
        { ret := - EOPNOTSUPP, data := none, trace := t ++ [Effect.i2c_check_functionality] }
      else if env.devm_iio_device_alloc = false then
        { ret := - ENOMEM, data := none,
          trace := t ++ [Effect.i2c_check_functionality, Effect.devm_iio_device_alloc] }
      else if (ams5915_read env
          (t ++ [Effect.i2c_check_functionality, Effect.devm_iio_device_alloc]) env.stack).ret
            < 0 then
        { ret := (ams5915_read env
            (t ++ [Effect.i2c_check_functionality, Effect.devm_iio_device_alloc]) env.stack).ret,
          data := some (calibration (ams5915_types_at (s32 driver_data) h)),
          trace := (ams5915_read env
            (t ++ [Effect.i2c_check_functionality, Effect.devm_iio_device_alloc])
              env.stack).trace ++ [Effect.dev_err] }
      else if env.devm_iio_triggered_buffer_setup < 0 then
        { ret := env.devm_iio_triggered_buffer_setup,
          data := some (calibration (ams5915_types_at (s32 driver_data) h)),
          trace := (ams5915_read env
            (t ++ [Effect.i2c_check_functionality, Effect.devm_iio_device_alloc])
              env.stack).trace ++ [Effect.devm_iio_triggered_buffer_setup, Effect.dev_err] }
      else if env.devm_iio_device_register < 0 then
        { ret := env.devm_iio_device_register,
          data := some (calibration (ams5915_types_at (s32 driver_data) h)),
          trace := (ams5915_read env
            (t ++ [Effect.i2c_check_functionality, Effect.devm_iio_device_alloc])
              env.stack).trace ++ [Effect.devm_iio_triggered_buffer_setup,
                Effect.devm_iio_device_register, Effect.dev_err] }
      else
        { ret := 0,
          data := some (calibration (ams5915_types_at (s32 driver_data) h)),
          trace := (ams5915_read env
            (t ++ [Effect.i2c_check_functionality, Effect.devm_iio_device_alloc])
              env.stack).trace ++ [Effect.devm_iio_triggered_buffer_setup,
                Effect.devm_iio_device_register] } := by
  have hcal := types_calibration_exact _ (ams5915_types_at_mem (s32 driver_data) h).1
  unfold ams5915_i2c_probe
  rw [dif_neg h]
  cases hf : env.i2c_check_functionality
  · simp
  · cases ha : env.devm_iio_device_alloc
    · simp
    · simp only [hcal.1, hcal.2, calibration]
      simp

/-- Return value and trace of probe in every case, with the effects written
out.  The receive is issued after `i2c_check_functionality` and
`devm_iio_device_alloc`. -/
theorem probe_ret_trace (env : Env) (driver_data : Nat) (t : List Effect) :
    ((ams5915_i2c_probe env driver_data t).ret, (ams5915_i2c_probe env driver_data t).trace) =
      if s32 driver_data < 0 ∨ s32 driver_data ≥ (AMS5915_TYPE_COUNT : Int) then
        (- EINVAL, t)
      else if env.i2c_check_functionality = false then
        (- EOPNOTSUPP, t ++ [Effect.i2c_check_functionality])
      else if env.devm_iio_device_alloc = false then
        (- ENOMEM, t ++ [Effect.i2c_check_functionality, Effect.devm_iio_device_alloc])
      else if (env.i2c_master_recv
          (t ++ [Effect.i2c_check_functionality, Effect.devm_iio_device_alloc])).ret ≠ 4 then
        (if (env.i2c_master_recv
              (t ++ [Effect.i2c_check_functionality, Effect.devm_iio_device_alloc])).ret < 0
          then (env.i2c_master_recv
              (t ++ [Effect.i2c_check_functionality, Effect.devm_iio_device_alloc])).ret
          else - EIO,
         t ++ [Effect.i2c_check_functionality, Effect.devm_iio_device_alloc,
           Effect.i2c_master_recv (env.i2c_master_recv
             (t ++ [Effect.i2c_check_functionality, Effect.devm_iio_device_alloc])),
           Effect.dev_err])
      else if env.devm_iio_triggered_buffer_setup < 0 then
        (env.devm_iio_triggered_buffer_setup,
         (ams5915_read env (t ++ [Effect.i2c_check_functionality, Effect.devm_iio_device_alloc])
            env.stack).trace ++ [Effect.devm_iio_triggered_buffer_setup, Effect.dev_err])
      else if env.devm_iio_device_register < 0 then
        (env.devm_iio_device_register,
         (ams5915_read env (t ++ [Effect.i2c_check_functionality, Effect.devm_iio_device_alloc])
            env.stack).trace ++ [Effect.devm_iio_triggered_buffer_setup,
              Effect.devm_iio_device_register, Effect.dev_err])
      else
        (0,
         (ams5915_read env (t ++ [Effect.i2c_check_functionality, Effect.devm_iio_device_alloc])
            env.stack).trace ++ [Effect.devm_iio_triggered_buffer_setup,
              Effect.devm_iio_device_register]) := by
  by_cases hr : s32 driver_data < 0 ∨ s32 driver_data ≥ (AMS5915_TYPE_COUNT : Int)
  · rw [probe_out_of_range env driver_data t hr, if_pos hr]
  · rw [probe_in_range env driver_data t hr, if_neg hr]
    by_cases hf : env.i2c_check_functionality = false
    · rw [if_pos hf, if_pos hf]
    · rw [if_neg hf, if_neg hf]
      by_cases ha : env.devm_iio_device_alloc = false
      · rw [if_pos ha, if_pos ha]
      · rw [if_neg ha, if_neg ha]
        by_cases h4 : (env.i2c_master_recv
            (t ++ [Effect.i2c_check_functionality, Effect.devm_iio_device_alloc])).ret = 4
        · have h0 : (ams5915_read env
              (t ++ [Effect.i2c_check_functionality, Effect.devm_iio_device_alloc])
              env.stack).ret = 0 := by
            rw [ams5915_read_full env _ env.stack _ _ _ _ (recv_eta _ h4)]
          rw [if_neg (by omega), if_neg (not_not.mpr h4)]
          split_ifs <;> rfl
        · have hneg := ams5915_read_fail_neg env _ env.stack h4
          rw [if_pos hneg, if_pos h4, ams5915_read_fail env _ env.stack h4]
          simp

/-- The trace a successful read of probe leaves. -/
theorem probe_read_trace_full (env : Env) (t : List Effect)
    (h4 : (env.i2c_master_recv
      (t ++ [Effect.i2c_check_functionality, Effect.devm_iio_device_alloc])).ret = 4) :
    (ams5915_read env (t ++ [Effect.i2c_check_functionality, Effect.devm_iio_device_alloc])
      env.stack).trace =
    t ++ [Effect.i2c_check_functionality, Effect.devm_iio_device_alloc,
      Effect.i2c_master_recv (env.i2c_master_recv
        (t ++ [Effect.i2c_check_functionality, Effect.devm_iio_device_alloc])),
      Effect.iio_get_time_ns (ams5915_read env
        (t ++ [Effect.i2c_check_functionality, Effect.devm_iio_device_alloc])
        env.stack).raw.timestamp] := by
  have hrx := recv_eta _ h4
  rw [ams5915_read_full env _ env.stack _ _ _ _ hrx, ← hrx]
  simp

/-- With a variant identifier inside the table, probe goes on to
`i2c_check_functionality`. -/
theorem probe_in_range_trace (env : Env) (driver_data : Nat) (t : List Effect)
    (hr : ¬ (s32 driver_data < 0 ∨ s32 driver_data ≥ (AMS5915_TYPE_COUNT : Int))) :
    ∃ u, (ams5915_i2c_probe env driver_data t).trace
      = t ++ Effect.i2c_check_functionality :: u := by
  have h := probe_ret_trace env driver_data t
  rw [if_neg hr] at h
  obtain ⟨u, hu, _, _⟩ := ams5915_read_trace env
    (t ++ [Effect.i2c_check_functionality, Effect.devm_iio_device_alloc]) env.stack
  rw [hu] at h
  split_ifs at h
  all_goals
    have ht := (Prod.mk.inj h).2
    rw [ht]
    simp

/-- No `int` operation of the calibration in probe leaves the signed 32-bit
range, for any table entry. -/
theorem types_no_overflow : ∀ ty ∈ ams5915_types,
    (-2 ^ 31 ≤ ty.pmax - ty.pmin ∧ ty.pmax - ty.pmin < 2 ^ 31) ∧
    (-2 ^ 31 ≤ ty.pmin * PRESS_SCALE_DIV ∧ ty.pmin * PRESS_SCALE_DIV < 2 ^ 31) ∧
    (-2 ^ 31 ≤ PRESS_RAW_MIN * (ty.pmax - ty.pmin) ∧
      PRESS_RAW_MIN * (ty.pmax - ty.pmin) < 2 ^ 31) ∧
    (-2 ^ 31 ≤ ty.pmin * PRESS_SCALE_DIV - PRESS_RAW_MIN * (ty.pmax - ty.pmin) ∧
      ty.pmin * PRESS_SCALE_DIV - PRESS_RAW_MIN * (ty.pmax - ty.pmin) < 2 ^ 31) ∧
    int32 (ty.pmax - ty.pmin) = ty.pmax - ty.pmin ∧
    int32 (ty.pmin * PRESS_SCALE_DIV) = ty.pmin * 13107 ∧
    int32 (PRESS_RAW_MIN * (ty.pmax - ty.pmin)) = 1638 * (ty.pmax - ty.pmin) := by
  decide

theorem types_pmin_lt_pmax : ∀ ty ∈ ams5915_types, ty.pmin < ty.pmax := by
  decide

/-! ## Claims -/

/-- C1: when the transport returns the 4 bytes `b0 b1 b2 b3` in full,
`ams5915_read` decodes on either host byte order the big-endian words
`word0 = b0*256 + b1` and `word1 = b2*256 + b3`, returns 0 and stores
`press = word0 & 0x3FFF` and `temp = (word1 >> 5) & 0x7FF`, which is
`press = (b0 & 0x3F)*256 + b1` and `temp = b2*8 + (b3 >> 5)`. -/
theorem c1_read_decodes_big_endian_fields (env : Env) (t : List Effect) (raw : AMS5915_RAW_T)
    (b0 b1 b2 b3 : Fin 256) (hrx : env.i2c_master_recv t = ⟨4, b0, b1, b2, b3⟩) :
    be16_to_cpu env.big_endian_host (load16 env.big_endian_host b0 b1) = b0.val * 256 + b1.val ∧
    be16_to_cpu env.big_endian_host (load16 env.big_endian_host b2 b3) = b2.val * 256 + b3.val ∧
    (ams5915_read env t raw).ret = 0 ∧
    (ams5915_read env t raw).raw.press = (b0.val * 256 + b1.val) &&& 0x3FFF ∧
    (ams5915_read env t raw).raw.temp = ((b2.val * 256 + b3.val) >>> 5) &&& 0x7FF ∧
    (ams5915_read env t raw).raw.press = (b0.val &&& 0x3F) * 256 + b1.val ∧
    (ams5915_read env t raw).raw.temp = b2.val * 8 + (b3.val >>> 5) := by
  have h0 := b0.isLt
  have h1 := b1.isLt
  have h2 := b2.isLt
  have h3 := b3.isLt
  have m14 : (0x3FFF : Nat) = 2 ^ 14 - 1 := by norm_num
  have m11 : (0x7FF : Nat) = 2 ^ 11 - 1 := by norm_num
  have m6 : (0x3F : Nat) = 2 ^ 6 - 1 := by norm_num
  rw [ams5915_read_full env t raw b0 b1 b2 b3 hrx, be16_to_cpu_load16, be16_to_cpu_load16,
    m14, m11, m6, Nat.and_pow_two_sub_one_eq_mod, Nat.and_pow_two_sub_one_eq_mod,
    Nat.and_pow_two_sub_one_eq_mod, Nat.shiftRight_eq_div_pow, Nat.shiftRight_eq_div_pow]
  refine ⟨rfl, rfl, rfl, ?_, ?_, ?_, ?_⟩ <;> dsimp only <;> omega

/-- C1 at the buffer `c5 a3 9b 7f` on a little-endian host. -/
theorem c1_read_decodes_big_endian_fields_witness :
    (constEnv false ⟨4, 0xc5, 0xa3, 0x9b, 0x7f⟩).i2c_master_recv [] = ⟨4, 0xc5, 0xa3, 0x9b, 0x7f⟩ ∧
    (ams5915_read (constEnv false ⟨4, 0xc5, 0xa3, 0x9b, 0x7f⟩) [] ⟨0, 0, 0⟩).raw.press
      = ((0xc5 : Fin 256).val * 256 + (0xa3 : Fin 256).val) &&& 0x3FFF ∧
    (ams5915_read (constEnv false ⟨4, 0xc5, 0xa3, 0x9b, 0x7f⟩) [] ⟨0, 0, 0⟩).raw.press = 0x05a3 ∧
    (ams5915_read (constEnv false ⟨4, 0xc5, 0xa3, 0x9b, 0x7f⟩) [] ⟨0, 0, 0⟩).raw.temp = 0x4db :=
  ⟨rfl,
   (c1_read_decodes_big_endian_fields (constEnv false ⟨4, 0xc5, 0xa3, 0x9b, 0x7f⟩) [] ⟨0, 0, 0⟩
      0xc5 0xa3 0x9b 0x7f rfl).2.2.2.1,
   by decide, by decide⟩

/-- C2: whatever the transport delivers, a successful `ams5915_read` leaves
`press` in `[0, 16383]` and `temp` in `[0, 2047]`; hence every value a
raw-mode query returns (return code `IIO_VAL_INT`) lies in `[0, 16383]` on
the pressure channel and in `[0, 2047]` on the temperature channel, and
every sample the trigger handler pushes to the buffers has both fields in
these ranges. -/
theorem c2_raw_fields_within_mask_ranges (env : Env) (data : AMS5915_DATA_T) (t : List Effect)
    (raw : AMS5915_RAW_T) (val val2 : Int) :
    ((ams5915_read env t raw).ret = 0 →
      (ams5915_read env t raw).raw.press ≤ 16383 ∧ (ams5915_read env t raw).raw.temp ≤ 2047) ∧
    ((ams5915_read_raw env data t .IIO_PRESSURE val val2 .IIO_CHAN_INFO_RAW).ret = IIO_VAL_INT →
      0 ≤ (ams5915_read_raw env data t .IIO_PRESSURE val val2 .IIO_CHAN_INFO_RAW).val ∧
      (ams5915_read_raw env data t .IIO_PRESSURE val val2 .IIO_CHAN_INFO_RAW).val ≤ 16383) ∧
    ((ams5915_read_raw env data t .IIO_TEMP val val2 .IIO_CHAN_INFO_RAW).ret = IIO_VAL_INT →
      0 ≤ (ams5915_read_raw env data t .IIO_TEMP val val2 .IIO_CHAN_INFO_RAW).val ∧
      (ams5915_read_raw env data t .IIO_TEMP val val2 .IIO_CHAN_INFO_RAW).val ≤ 2047) ∧
    (∀ s ∈ pushed ((ams5915_trigger_handler env t).trace.drop t.length),
      s.press ≤ 16383 ∧ s.temp ≤ 2047) := by
  refine ⟨ams5915_read_range env t raw, ?_, ?_, ?_⟩
  · intro h
    have hle := ams5915_read_ret_nonpos env t env.stack
    simp only [ams5915_read_raw, IIO_VAL_INT] at h ⊢
    split_ifs at h ⊢ with h0
    · dsimp only at h
      omega
    · have hr := ams5915_read_range env t env.stack (by simpa using h0)
      dsimp only
      rw [s32_of_lt _ (by omega)]
      omega
  · intro h
    have hle := ams5915_read_ret_nonpos env t env.stack
    simp only [ams5915_read_raw, IIO_VAL_INT] at h ⊢
    split_ifs at h ⊢ with h0
    · dsimp only at h
      omega
    · have hr := ams5915_read_range env t env.stack (by simpa using h0)
      dsimp only
      rw [s32_of_lt _ (by omega)]
      omega
  · intro s hs
    by_cases h4 : (env.i2c_master_recv t).ret = 4
    · have hrx : env.i2c_master_recv t = ⟨4, (env.i2c_master_recv t).b0,
          (env.i2c_master_recv t).b1, (env.i2c_master_recv t).b2,
          (env.i2c_master_recv t).b3⟩ := by
        rw [← h4]
      rw [trigger_handler_full env t _ _ _ _ hrx, List.drop_left] at hs
      simp only [pushed, List.mem_singleton] at hs
      subst hs
      apply ams5915_read_range
      rw [ams5915_read_full env t env.stack _ _ _ _ hrx]
    · rw [trigger_handler_fail env t h4, List.drop_left] at hs
      simp [pushed] at hs

/-- C2 at the all-ones buffer `ff ff ff ff`: the read succeeds, the raw-mode
queries return 16383 and 2047, and the one pushed sample carries them. -/
theorem c2_raw_fields_within_mask_ranges_witness :
    (ams5915_read (constEnv false ⟨4, 0xff, 0xff, 0xff, 0xff⟩) [] ⟨0, 0, 0⟩).ret = 0 ∧
    (ams5915_read (constEnv false ⟨4, 0xff, 0xff, 0xff, 0xff⟩) [] ⟨0, 0, 0⟩).raw.press ≤ 16383 ∧
    (ams5915_read (constEnv false ⟨4, 0xff, 0xff, 0xff, 0xff⟩) [] ⟨0, 0, 0⟩).raw.temp ≤ 2047 ∧
    (ams5915_read_raw (constEnv false ⟨4, 0xff, 0xff, 0xff, 0xff⟩) ⟨5, -8190⟩ []
      .IIO_PRESSURE 0 0 .IIO_CHAN_INFO_RAW).ret = IIO_VAL_INT ∧
    (ams5915_read_raw (constEnv false ⟨4, 0xff, 0xff, 0xff, 0xff⟩) ⟨5, -8190⟩ []
      .IIO_PRESSURE 0 0 .IIO_CHAN_INFO_RAW).val = 16383 ∧
    (ams5915_read_raw (constEnv false ⟨4, 0xff, 0xff, 0xff, 0xff⟩) ⟨5, -8190⟩ []
      .IIO_TEMP 0 0 .IIO_CHAN_INFO_RAW).val = 2047 ∧
    pushed ((ams5915_trigger_handler (constEnv false ⟨4, 0xff, 0xff, 0xff, 0xff⟩) []).trace.drop 0)
      = [⟨16383, 2047, 1000⟩] :=
  ⟨by decide,
   ((c2_raw_fields_within_mask_ranges (constEnv false ⟨4, 0xff, 0xff, 0xff, 0xff⟩) ⟨5, -8190⟩ []
      ⟨0, 0, 0⟩ 0 0).1 (by decide)).1,
   ((c2_raw_fields_within_mask_ranges (constEnv false ⟨4, 0xff, 0xff, 0xff, 0xff⟩) ⟨5, -8190⟩ []
      ⟨0, 0, 0⟩ 0 0).1 (by decide)).2,
   by decide, by decide, by decide, by decide⟩

/-- C3: for every one of the 22 cataloged variants (`driver_data < 22`), once
probe has allocated the device the calibration it stores satisfies
`press_scale_mul = pmax - pmin` and
`press_offset = pmin*13107 - 1638*press_scale_mul` exactly, with
`(pmin, pmax)` the table entry of the variant and
`13107 = PRESS_SCALE_DIV = PRESS_RAW_MAX - PRESS_RAW_MIN = 14745 - 1638`. -/
theorem c3_probe_stores_exact_calibration (env : Env) (t : List Effect) (driver_data : Nat)
    (hid : driver_data < AMS5915_TYPE_COUNT)
    (hf : env.i2c_check_functionality = true) (ha : env.devm_iio_device_alloc = true) :
    ∃ ty d, ams5915_types[driver_data]? = some ty ∧
      (ams5915_i2c_probe env driver_data t).data = some d ∧
      d.press_scale_mul = ty.pmax - ty.pmin ∧
      d.press_offset = ty.pmin * 13107 - 1638 * d.press_scale_mul ∧
      PRESS_SCALE_DIV = 13107 ∧ PRESS_RAW_MAX - PRESS_RAW_MIN = 13107 ∧
      PRESS_RAW_MAX = 14745 ∧ PRESS_RAW_MIN = 1638 := by
  simp only [AMS5915_TYPE_COUNT] at hid
  have hs : s32 driver_data = driver_data := s32_of_lt driver_data (by omega)
  have hlen : ams5915_types.length = 22 := rfl
  have hlt : driver_data < ams5915_types.length := by omega
  refine ⟨ams5915_types[driver_data], calibration ams5915_types[driver_data],
    List.getElem?_eq_getElem hlt, ?_, rfl, rfl, by decide, by decide, rfl, rfl⟩
  rw [probe_data, hs, if_neg (by simp only [AMS5915_TYPE_COUNT]; omega), hf, ha]
  simp [List.getElem?_eq_getElem hlt]

/-- C3 at variant 1200-B (`driver_data = 21`, range 700..1200): probe stores
scale 500 and offset `700*13107 - 1638*500 = 8355900`. -/
theorem c3_probe_stores_exact_calibration_witness :
    21 < AMS5915_TYPE_COUNT ∧
    (∃ ty d, ams5915_types[21]? = some ty ∧
      (ams5915_i2c_probe (constEnv false ⟨4, 0, 0, 0, 0⟩) 21 []).data = some d ∧
      d.press_scale_mul = ty.pmax - ty.pmin ∧
      d.press_offset = ty.pmin * 13107 - 1638 * d.press_scale_mul ∧
      PRESS_SCALE_DIV = 13107 ∧ PRESS_RAW_MAX - PRESS_RAW_MIN = 13107 ∧
      PRESS_RAW_MAX = 14745 ∧ PRESS_RAW_MIN = 1638) ∧
    (ams5915_i2c_probe (constEnv false ⟨4, 0, 0, 0, 0⟩) 21 []).data = some ⟨500, 8355900⟩ :=
  ⟨by decide,
   c3_probe_stores_exact_calibration (constEnv false ⟨4, 0, 0, 0, 0⟩) [] 21 (by decide) rfl rfl,
   by decide⟩

/-- C4: `ams5915_types` has exactly 22 entries, `AMS5915_TYPE_COUNT = 22`,
the enumerators number the entries in declaration order, the `(pmin, pmax)`
pairs are the cataloged ones (in particular `(0, 1000)` for 1000-A and
`(700, 1200)` for 1200-B), and the i-th entry of the i2c id table carries
the i-th part name and the i-th enumerator. -/
theorem c4_variant_table_contents :
    ams5915_types.length = 22 ∧ AMS5915_TYPE_COUNT = 22 ∧
    [AMS5915_0005_D_TYPE, AMS5915_0010_D_TYPE, AMS5915_0005_D_B_TYPE, AMS5915_0010_D_B_TYPE,
     AMS5915_0020_D_TYPE, AMS5915_0050_D_TYPE, AMS5915_0100_D_TYPE, AMS5915_0020_D_B_TYPE,
     AMS5915_0050_D_B_TYPE, AMS5915_0100_D_B_TYPE, AMS5915_0200_D_TYPE, AMS5915_0350_D_TYPE,
     AMS5915_1000_D_TYPE, AMS5915_2000_D_TYPE, AMS5915_4000_D_TYPE, AMS5915_7000_D_TYPE,
     AMS5915_10000_D_TYPE, AMS5915_0200_D_B_TYPE, AMS5915_0350_D_B_TYPE, AMS5915_1000_D_B_TYPE,
     AMS5915_1000_A_TYPE, AMS5915_1200_B_TYPE] = List.range 22 ∧
    ams5915_types.map (fun ty => (ty.pmin, ty.pmax)) =
      [(0, 5), (0, 10), (-5, 5), (-10, 10), (0, 20), (0, 50), (0, 100), (-20, 20), (-50, 50),
       (-100, 100), (0, 200), (0, 350), (0, 1000), (0, 2000), (0, 4000), (0, 7000), (0, 10000),
       (-200, 200), (-350, 350), (-1000, 1000), (0, 1000), (700, 1200)] ∧
    ams5915_types[AMS5915_1000_A_TYPE]? = some ⟨0, 1000⟩ ∧
    ams5915_types[AMS5915_1200_B_TYPE]? = some ⟨700, 1200⟩ ∧
    ams5915_i2c_id.length = 22 ∧
    ams5915_i2c_id.map Prod.snd = List.range 22 ∧
    ams5915_i2c_id.map Prod.fst =
      ["ams5915-0005-d", "ams5915-0010-d", "ams5915-0005-d-b", "ams5915-0010-d-b",
       "ams5915-0020-d", "ams5915-0050-d", "ams5915-0100-d", "ams5915-0020-d-b",
       "ams5915-0050-d-b", "ams5915-0100-d-b", "ams5915-0200-d", "ams5915-0350-d",
       "ams5915-1000-d", "ams5915-2000-d", "ams5915-4000-d", "ams5915-7000-d",
       "ams5915-10000-d", "ams5915-0200-d-b", "ams5915-0350-d-b", "ams5915-1000-d-b",
       "ams5915-1000-a", "ams5915-1200-b"] := by
  refine ⟨rfl, rfl, by decide, by decide, by decide, by decide, rfl, by decide, rfl⟩

/-- C5: for the calibration `d` that probe stored for any variant and any
full receive `b0 b1 b2 b3`, a processed-mode query on the pressure channel
returns `IIO_VAL_FRACTIONAL` with numerator
`pressure_raw * press_scale_mul + press_offset` (the exact integer, with
`pressure_raw` the value `ams5915_read` decodes) and denominator
`131070 = 13107 * 10`; the numerator is not divided. -/
theorem c5_processed_pressure_fraction (env0 : Env) (t0 : List Effect) (driver_data : Nat)
    (d : AMS5915_DATA_T) (hd : (ams5915_i2c_probe env0 driver_data t0).data = some d)
    (env : Env) (t : List Effect) (val val2 : Int) (b0 b1 b2 b3 : Fin 256)
    (hrx : env.i2c_master_recv t = ⟨4, b0, b1, b2, b3⟩) :
    (ams5915_read env t env.stack).raw.press = (b0.val * 256 + b1.val) % 16384 ∧
    (ams5915_read_raw env d t .IIO_PRESSURE val val2 .IIO_CHAN_INFO_PROCESSED).ret
      = IIO_VAL_FRACTIONAL ∧
    (ams5915_read_raw env d t .IIO_PRESSURE val val2 .IIO_CHAN_INFO_PROCESSED).val
      = ((ams5915_read env t env.stack).raw.press : Int) * d.press_scale_mul + d.press_offset ∧
    (ams5915_read_raw env d t .IIO_PRESSURE val val2 .IIO_CHAN_INFO_PROCESSED).val2 = 131070 ∧
    PRESS_SCALE_DIV_KPA = 13107 * 10 := by
  obtain ⟨ty, hmem, rfl⟩ := probe_data_some env0 t0 driver_data d hd
  obtain ⟨hpress, hret, hval, hval2⟩ :=
    read_raw_processed_press_calibrated ty hmem env t val val2 b0 b1 b2 b3 hrx
  exact ⟨hpress, hret, hval, hval2, by decide⟩

/-- C5 at variant 0200-D (range 0..200) and the buffer `1f ff 00 00`
(pressure_raw 8191): numerator 1310600, denominator 131070. -/
theorem c5_processed_pressure_fraction_witness :
    (ams5915_i2c_probe (constEnv false ⟨4, 0, 0, 0, 0⟩) AMS5915_0200_D_TYPE []).data
      = some ⟨200, -327600⟩ ∧
    (constEnv false ⟨4, 0x1f, 0xff, 0, 0⟩).i2c_master_recv [] = ⟨4, 0x1f, 0xff, 0, 0⟩ ∧
    (ams5915_read (constEnv false ⟨4, 0x1f, 0xff, 0, 0⟩) []
      (constEnv false ⟨4, 0x1f, 0xff, 0, 0⟩).stack).raw.press = 8191 ∧
    (ams5915_read_raw (constEnv false ⟨4, 0x1f, 0xff, 0, 0⟩) ⟨200, -327600⟩ []
      .IIO_PRESSURE 0 0 .IIO_CHAN_INFO_PROCESSED).val = 1310600 ∧
    (ams5915_read_raw (constEnv false ⟨4, 0x1f, 0xff, 0, 0⟩) ⟨200, -327600⟩ []
      .IIO_PRESSURE 0 0 .IIO_CHAN_INFO_PROCESSED).val2 = 131070 :=
  ⟨by decide, rfl, by decide, by decide,
   (c5_processed_pressure_fraction (constEnv false ⟨4, 0, 0, 0, 0⟩) [] AMS5915_0200_D_TYPE
      ⟨200, -327600⟩ (by decide) (constEnv false ⟨4, 0x1f, 0xff, 0, 0⟩) [] 0 0
      0x1f 0xff 0 0 rfl).2.2.2.1⟩

/-- C6: after any full receive, a processed-mode query on the temperature
channel returns `IIO_VAL_INT` with the plain signed integer
`trunc(temperature_raw * 200000 / 2048) + (-50000)`, although the code
evaluates it in `uint32_t` and converts to `int` at the end; the product
does not wrap, and `temperature_raw = 0` gives `-50000`. -/
theorem c6_processed_temperature_value (env : Env) (data : AMS5915_DATA_T) (t : List Effect)
    (val val2 : Int) (b0 b1 b2 b3 : Fin 256)
    (hrx : env.i2c_master_recv t = ⟨4, b0, b1, b2, b3⟩) :
    (ams5915_read env t env.stack).raw.temp ≤ 2047 ∧
    (ams5915_read_raw env data t .IIO_TEMP val val2 .IIO_CHAN_INFO_PROCESSED).ret = IIO_VAL_INT ∧
    (ams5915_read_raw env data t .IIO_TEMP val val2 .IIO_CHAN_INFO_PROCESSED).val
      = Int.tdiv (((ams5915_read env t env.stack).raw.temp : Int) * 200000) 2048 + (-50000) ∧
    (ams5915_read env t env.stack).raw.temp * 200000 < 2 ^ 32 ∧
    ((ams5915_read env t env.stack).raw.temp = 0 →
      (ams5915_read_raw env data t .IIO_TEMP val val2 .IIO_CHAN_INFO_PROCESSED).val = -50000) := by
  obtain ⟨hret, hval⟩ := read_raw_processed_temp env data t val val2 b0 b1 b2 b3 hrx
  have htemp : (ams5915_read env t env.stack).raw.temp = (b2.val * 256 + b3.val) / 32 % 2048 := by
    rw [ams5915_read_full env t env.stack b0 b1 b2 b3 hrx]
  have hle : (b2.val * 256 + b3.val) / 32 % 2048 ≤ 2047 := by omega
  have hv := processed_temp_exact _ hle
  rw [htemp, hval, hv, Int.tdiv_eq_ediv (by omega) (by omega)]
  refine ⟨hle, hret, rfl, by omega, ?_⟩
  intro h0
  rw [h0]
  decide

/-- C6 at the buffer `00 00 40 20` (temperature_raw 513):
`513 * 200000 / 2048 - 50000 = 97`. -/
theorem c6_processed_temperature_value_witness :
    (constEnv true ⟨4, 0, 0, 0x40, 0x20⟩).i2c_master_recv [] = ⟨4, 0, 0, 0x40, 0x20⟩ ∧
    (ams5915_read (constEnv true ⟨4, 0, 0, 0x40, 0x20⟩) []
      (constEnv true ⟨4, 0, 0, 0x40, 0x20⟩).stack).raw.temp = 513 ∧
    (ams5915_read_raw (constEnv true ⟨4, 0, 0, 0x40, 0x20⟩) ⟨5, -8190⟩ []
      .IIO_TEMP 0 0 .IIO_CHAN_INFO_PROCESSED).val = 97 ∧
    (ams5915_read_raw (constEnv true ⟨4, 0, 0, 0x40, 0x20⟩) ⟨5, -8190⟩ []
      .IIO_TEMP 0 0 .IIO_CHAN_INFO_PROCESSED).ret = IIO_VAL_INT :=
  ⟨rfl, by decide, by decide,
   (c6_processed_temperature_value (constEnv true ⟨4, 0, 0, 0x40, 0x20⟩) ⟨5, -8190⟩ [] 0 0
      0 0 0x40 0x20 rfl).2.1⟩

/-- C7 as stated fails: at the buffer `00 00 ff e0` (temperature_raw 2047)
the processed temperature is `2047*200000/2048 - 50000 = 149902`, not
147412. -/
theorem c7_counterexample :
    (ams5915_read (constEnv false ⟨4, 0, 0, 0xff, 0xe0⟩) []
      (constEnv false ⟨4, 0, 0, 0xff, 0xe0⟩).stack).raw.temp = 2047 ∧
    (2047 * 200000 / 2048 + (-50000) : Int) = 149902 ∧
    (ams5915_read_raw (constEnv false ⟨4, 0, 0, 0xff, 0xe0⟩) ⟨5, -8190⟩ []
      .IIO_TEMP 0 0 .IIO_CHAN_INFO_PROCESSED).val = 149902 ∧
    ¬ ((ams5915_read_raw (constEnv false ⟨4, 0, 0, 0xff, 0xe0⟩) ⟨5, -8190⟩ []
      .IIO_TEMP 0 0 .IIO_CHAN_INFO_PROCESSED).val = 147412) := by
  refine ⟨by decide, by decide, by decide, by decide⟩

/-- C7 amended: after a full receive, a processed-mode query on the
temperature channel maps `temperature_raw = 0` to `-50000` and
`temperature_raw = 2047` to `149902`, the floor of `2047*200000/2048` plus
`-50000`. -/
theorem c7_processed_temperature_endpoints (env : Env) (data : AMS5915_DATA_T)
    (t : List Effect) (val val2 : Int) (b0 b1 b2 b3 : Fin 256)
    (hrx : env.i2c_master_recv t = ⟨4, b0, b1, b2, b3⟩) :
    ((ams5915_read env t env.stack).raw.temp = 0 →
      (ams5915_read_raw env data t .IIO_TEMP val val2 .IIO_CHAN_INFO_PROCESSED).ret = IIO_VAL_INT ∧
      (ams5915_read_raw env data t .IIO_TEMP val val2 .IIO_CHAN_INFO_PROCESSED).val = -50000) ∧
    ((ams5915_read env t env.stack).raw.temp = 2047 →
      (ams5915_read_raw env data t .IIO_TEMP val val2 .IIO_CHAN_INFO_PROCESSED).ret = IIO_VAL_INT ∧
      (ams5915_read_raw env data t .IIO_TEMP val val2 .IIO_CHAN_INFO_PROCESSED).val = 149902) ∧
    (149902 : Int) = 2047 * 200000 / 2048 + (-50000) := by
  obtain ⟨hret, hval⟩ := read_raw_processed_temp env data t val val2 b0 b1 b2 b3 hrx
  have htemp : (ams5915_read env t env.stack).raw.temp = (b2.val * 256 + b3.val) / 32 % 2048 := by
    rw [ams5915_read_full env t env.stack b0 b1 b2 b3 hrx]
  rw [htemp, hval]
  refine ⟨?_, ?_, by decide⟩
  · intro h
    rw [h, processed_temp_exact 0 (by omega)]
    exact ⟨hret, by decide⟩
  · intro h
    rw [h, processed_temp_exact 2047 (by omega)]
    exact ⟨hret, by decide⟩

/-- C7 amended, at the buffers `00 00 00 00` (temperature_raw 0) and
`3f ff ff ff` (temperature_raw 2047). -/
theorem c7_processed_temperature_endpoints_witness :
    ((constEnv false ⟨4, 0, 0, 0, 0⟩).i2c_master_recv [] = ⟨4, 0, 0, 0, 0⟩ ∧
     (ams5915_read_raw (constEnv false ⟨4, 0, 0, 0, 0⟩) ⟨5, -8190⟩ []
        .IIO_TEMP 0 0 .IIO_CHAN_INFO_PROCESSED).val = -50000) ∧
    ((constEnv false ⟨4, 0x3f, 0xff, 0xff, 0xff⟩).i2c_master_recv [] = ⟨4, 0x3f, 0xff, 0xff, 0xff⟩ ∧
     (ams5915_read_raw (constEnv false ⟨4, 0x3f, 0xff, 0xff, 0xff⟩) ⟨5, -8190⟩ []
        .IIO_TEMP 0 0 .IIO_CHAN_INFO_PROCESSED).val = 149902) :=
  ⟨⟨rfl, ((c7_processed_temperature_endpoints (constEnv false ⟨4, 0, 0, 0, 0⟩) ⟨5, -8190⟩ [] 0 0
      0 0 0 0 rfl).1 (by decide)).2⟩,
   ⟨rfl, ((c7_processed_temperature_endpoints (constEnv false ⟨4, 0x3f, 0xff, 0xff, 0xff⟩)
      ⟨5, -8190⟩ [] 0 0 0x3f 0xff 0xff 0xff rfl).2.1 (by decide)).2⟩⟩

/-- C8: for a cataloged variant with table entry `(pmin, pmax)` and the
calibration `d` probe stored for it, the processed pressure numerator is
`pmin * 13107` when the decoded pressure_raw is 1638 (`PRESS_RAW_MIN`) and
`pmax * 13107` when it is 14745 (`PRESS_RAW_MAX`), over the denominator
`13107 * 10`. -/
theorem c8_processed_pressure_endpoints (env0 : Env) (t0 : List Effect) (driver_data : Nat)
    (ty : AMS5915_TYPEDEF_T) (d : AMS5915_DATA_T)
    (hty : ams5915_types[driver_data]? = some ty)
    (hd : (ams5915_i2c_probe env0 driver_data t0).data = some d)
    (env : Env) (t : List Effect) (val val2 : Int) (b0 b1 b2 b3 : Fin 256)
    (hrx : env.i2c_master_recv t = ⟨4, b0, b1, b2, b3⟩) :
    (((ams5915_read env t env.stack).raw.press : Int) = PRESS_RAW_MIN →
      (ams5915_read_raw env d t .IIO_PRESSURE val val2 .IIO_CHAN_INFO_PROCESSED).val
        = ty.pmin * 13107) ∧
    (((ams5915_read env t env.stack).raw.press : Int) = PRESS_RAW_MAX →
      (ams5915_read_raw env d t .IIO_PRESSURE val val2 .IIO_CHAN_INFO_PROCESSED).val
        = ty.pmax * 13107) ∧
    (ams5915_read_raw env d t .IIO_PRESSURE val val2 .IIO_CHAN_INFO_PROCESSED).val2
      = 13107 * 10 ∧
    PRESS_RAW_MIN = 1638 ∧ PRESS_RAW_MAX = 14745 := by
  have hcal := probe_data_of_variant env0 t0 driver_data ty d hty hd
  subst hcal
  obtain ⟨_, _, hval, hval2⟩ :=
    read_raw_processed_press_calibrated ty (List.getElem?_mem hty) env t val val2
      b0 b1 b2 b3 hrx
  rw [hval, hval2]
  refine ⟨?_, ?_, by decide, rfl, rfl⟩
  · intro h
    rw [h]
    simp only [calibration, PRESS_RAW_MIN]
    ring
  · intro h
    rw [h]
    simp only [calibration, PRESS_RAW_MAX]
    ring

/-- C8 at variant 1000-D-B (range -1000..1000): the buffer `06 66 00 00`
(pressure_raw 1638) gives numerator `-1000 * 13107` and the buffer
`39 99 00 00` (pressure_raw 14745) gives `1000 * 13107`. -/
theorem c8_processed_pressure_endpoints_witness :
    ams5915_types[AMS5915_1000_D_B_TYPE]? = some ⟨-1000, 1000⟩ ∧
    (ams5915_i2c_probe (constEnv false ⟨4, 0, 0, 0, 0⟩) AMS5915_1000_D_B_TYPE []).data
      = some ⟨2000, -16383000⟩ ∧
    (ams5915_read_raw (constEnv false ⟨4, 0x06, 0x66, 0, 0⟩) ⟨2000, -16383000⟩ []
      .IIO_PRESSURE 0 0 .IIO_CHAN_INFO_PROCESSED).val = (-1000) * 13107 ∧
    (ams5915_read_raw (constEnv false ⟨4, 0x39, 0x99, 0, 0⟩) ⟨2000, -16383000⟩ []
      .IIO_PRESSURE 0 0 .IIO_CHAN_INFO_PROCESSED).val = 1000 * 13107 :=
  ⟨by decide, by decide,
   (c8_processed_pressure_endpoints (constEnv false ⟨4, 0, 0, 0, 0⟩) [] AMS5915_1000_D_B_TYPE
      ⟨-1000, 1000⟩ ⟨2000, -16383000⟩ (by decide) (by decide)
      (constEnv false ⟨4, 0x06, 0x66, 0, 0⟩) [] 0 0 0x06 0x66 0 0 rfl).1 (by decide),
   (c8_processed_pressure_endpoints (constEnv false ⟨4, 0, 0, 0, 0⟩) [] AMS5915_1000_D_B_TYPE
      ⟨-1000, 1000⟩ ⟨2000, -16383000⟩ (by decide) (by decide)
      (constEnv false ⟨4, 0x39, 0x99, 0, 0⟩) [] 0 0 0x39 0x99 0 0 rfl).2.1 (by decide)⟩

/-- C9: for every device instance, a scale-mode query returns the fraction
`(200000, 2048)` on the temperature channel and `(press_scale_mul, 131070)`
on the pressure channel; an offset-mode query returns the plain integer
`-50000` on the temperature channel (leaving `val2` alone) and the fraction
`(press_offset, 131070)` on the pressure channel.  No call into the kernel
is made, and the results are the same in any other environment `env2`,
whatever its transport would deliver. -/
theorem c9_scale_and_offset_queries (env env2 : Env) (data : AMS5915_DATA_T)
    (t : List Effect) (val val2 : Int) :
    ams5915_read_raw env data t .IIO_TEMP val val2 .IIO_CHAN_INFO_SCALE
      = { ret := IIO_VAL_FRACTIONAL, val := 200000, val2 := 2048, trace := t } ∧
    ams5915_read_raw env data t .IIO_PRESSURE val val2 .IIO_CHAN_INFO_SCALE
      = { ret := IIO_VAL_FRACTIONAL, val := data.press_scale_mul, val2 := 131070, trace := t } ∧
    ams5915_read_raw env data t .IIO_TEMP val val2 .IIO_CHAN_INFO_OFFSET
      = { ret := IIO_VAL_INT, val := -50000, val2 := val2, trace := t } ∧
    ams5915_read_raw env data t .IIO_PRESSURE val val2 .IIO_CHAN_INFO_OFFSET
      = { ret := IIO_VAL_FRACTIONAL, val := data.press_offset, val2 := 131070, trace := t } ∧
    (∀ chan_type,
      ams5915_read_raw env data t chan_type val val2 .IIO_CHAN_INFO_SCALE
        = ams5915_read_raw env2 data t chan_type val val2 .IIO_CHAN_INFO_SCALE ∧
      ams5915_read_raw env data t chan_type val val2 .IIO_CHAN_INFO_OFFSET
        = ams5915_read_raw env2 data t chan_type val val2 .IIO_CHAN_INFO_OFFSET) := by
  refine ⟨rfl, ?_, rfl, ?_, ?_⟩
  · simp only [ams5915_read_raw, PRESS_SCALE_DIV_KPA, PRESS_SCALE_DIV, PRESS_RAW_MAX,
      PRESS_RAW_MIN]
    norm_num
  · simp only [ams5915_read_raw, PRESS_SCALE_DIV_KPA, PRESS_SCALE_DIV, PRESS_RAW_MAX,
      PRESS_RAW_MIN]
    norm_num
  · intro chan_type
    cases chan_type <;> exact ⟨rfl, rfl⟩

/-- C10: whatever the transport answers to the 4-byte receive,
`ams5915_read` returns a negative result unchanged, returns `-EIO` (`-5`)
for a non-negative byte count other than 4, leaves every field of `raw` as
it was in both cases, and returns 0 exactly when 4 bytes were received. -/
theorem c10_read_error_outcomes (env : Env) (t : List Effect) (raw : AMS5915_RAW_T) :
    ((env.i2c_master_recv t).ret < 0 →
      (ams5915_read env t raw).ret = (env.i2c_master_recv t).ret ∧
      (ams5915_read env t raw).raw = raw) ∧
    (0 ≤ (env.i2c_master_recv t).ret → (env.i2c_master_recv t).ret ≠ 4 →
      (ams5915_read env t raw).ret = - EIO ∧ (ams5915_read env t raw).ret = -5 ∧
      (ams5915_read env t raw).raw = raw) ∧
    ((ams5915_read env t raw).ret = 0 ↔ (env.i2c_master_recv t).ret = 4) := by
  refine ⟨?_, ?_, ?_⟩
  · intro hneg
    rw [ams5915_read_fail env t raw (by omega), if_pos hneg]
    exact ⟨rfl, rfl⟩
  · intro hpos hne
    rw [ams5915_read_fail env t raw hne, if_neg (by omega)]
    exact ⟨rfl, rfl, rfl⟩
  · constructor
    · intro h0
      by_contra hne
      rw [ams5915_read_fail env t raw hne] at h0
      simp only [ EIO] at h0
      split at h0 <;> omega
    · intro h4
      have hrx : env.i2c_master_recv t = ⟨4, (env.i2c_master_recv t).b0,
          (env.i2c_master_recv t).b1, (env.i2c_master_recv t).b2,
          (env.i2c_master_recv t).b3⟩ := by
        rw [← h4]
      rw [ams5915_read_full env t raw _ _ _ _ hrx]

/-- C10 at a transport error `-121`, at a 2-byte short read and at a full
read, each starting from the sample `(7, 8, 9)`. -/
theorem c10_read_error_outcomes_witness :
    ((ams5915_read (constEnv false ⟨-121, 0, 0, 0, 0⟩) [] ⟨7, 8, 9⟩).ret = -121 ∧
     (ams5915_read (constEnv false ⟨-121, 0, 0, 0, 0⟩) [] ⟨7, 8, 9⟩).raw = ⟨7, 8, 9⟩) ∧
    ((ams5915_read (constEnv false ⟨2, 0x12, 0x34, 0, 0⟩) [] ⟨7, 8, 9⟩).ret = - EIO ∧
     (ams5915_read (constEnv false ⟨2, 0x12, 0x34, 0, 0⟩) [] ⟨7, 8, 9⟩).ret = -5 ∧
     (ams5915_read (constEnv false ⟨2, 0x12, 0x34, 0, 0⟩) [] ⟨7, 8, 9⟩).raw = ⟨7, 8, 9⟩) ∧
    (ams5915_read (constEnv false ⟨4, 0x12, 0x34, 0x56, 0x78⟩) [] ⟨7, 8, 9⟩).ret = 0 :=
  ⟨(c10_read_error_outcomes (constEnv false ⟨-121, 0, 0, 0, 0⟩) [] ⟨7, 8, 9⟩).1 (by decide),
   (c10_read_error_outcomes (constEnv false ⟨2, 0x12, 0x34, 0, 0⟩) [] ⟨7, 8, 9⟩).2.1
     (by decide) (by decide),
   (c10_read_error_outcomes (constEnv false ⟨4, 0x12, 0x34, 0x56, 0x78⟩) [] ⟨7, 8, 9⟩).2.2.mpr
     rfl⟩

/-- C11 as stated fails: a raw-mode query on a channel that is neither
pressure nor temperature performs a bus transaction before it looks at the
channel type, and when the transport answers `-121` the query returns
`-121`, not `-EINVAL`. -/
theorem c11_counterexample :
    (ams5915_read_raw (constEnv false ⟨-121, 0, 0, 0, 0⟩) ⟨5, -8190⟩ [] (.other 0) 0 0
      .IIO_CHAN_INFO_RAW).ret = -121 ∧
    (ams5915_read_raw (constEnv false ⟨-121, 0, 0, 0, 0⟩) ⟨5, -8190⟩ [] (.other 0) 0 0
      .IIO_CHAN_INFO_RAW).ret ≠ - EINVAL ∧
    (ams5915_read_raw (constEnv false ⟨-121, 0, 0, 0, 0⟩) ⟨5, -8190⟩ [] (.other 0) 0 0
      .IIO_CHAN_INFO_RAW).trace = [Effect.i2c_master_recv ⟨-121, 0, 0, 0, 0⟩] ∧
    recv_calls (ams5915_read_raw (constEnv false ⟨4, 0, 0, 0, 0⟩) ⟨5, -8190⟩ [] (.other 0) 0 0
      .IIO_CHAN_INFO_PROCESSED).trace = 1 := by
  refine ⟨by decide, by decide, by decide, by decide⟩

/-- C11 amended: for a channel type that is neither pressure nor temperature,
a scale-mode or offset-mode query returns `-EINVAL` with no call into the
kernel (no bus transaction); a raw-mode or processed-mode query first
performs exactly one receive and then returns the read's error if the read
failed and `-EINVAL` if it succeeded.  In all four modes `val` and `val2`
are left as they were. -/
theorem c11_unsupported_channel_by_mode (env : Env) (data : AMS5915_DATA_T) (t : List Effect)
    (code : Nat) (val val2 : Int) :
    ams5915_read_raw env data t (.other code) val val2 .IIO_CHAN_INFO_SCALE
      = { ret := - EINVAL, val := val, val2 := val2, trace := t } ∧
    ams5915_read_raw env data t (.other code) val val2 .IIO_CHAN_INFO_OFFSET
      = { ret := - EINVAL, val := val, val2 := val2, trace := t } ∧
    ams5915_read_raw env data t (.other code) val val2 .IIO_CHAN_INFO_RAW
      = { ret := if (env.i2c_master_recv t).ret = 4 then - EINVAL
                 else if (env.i2c_master_recv t).ret < 0 then (env.i2c_master_recv t).ret
                 else - EIO,
          val := val, val2 := val2, trace := (ams5915_read env t env.stack).trace } ∧
    ams5915_read_raw env data t (.other code) val val2 .IIO_CHAN_INFO_PROCESSED
      = { ret := if (env.i2c_master_recv t).ret = 4 then - EINVAL
                 else if (env.i2c_master_recv t).ret < 0 then (env.i2c_master_recv t).ret
                 else - EIO,
          val := val, val2 := val2, trace := (ams5915_read env t env.stack).trace } ∧
    recv_calls (ams5915_read env t env.stack).trace = recv_calls t + 1 := by
  refine ⟨rfl, rfl, ?_, ?_, ams5915_read_recv_calls env t env.stack⟩
  · by_cases h4 : (env.i2c_master_recv t).ret = 4
    · rw [read_raw_other_read_ok env data t code val val2 _ (Or.inl rfl) h4, if_pos h4]
    · rw [read_raw_read_failed env data t _ val val2 _ (Or.inl rfl) h4, if_neg h4,
        ams5915_read_fail env t env.stack h4]
  · by_cases h4 : (env.i2c_master_recv t).ret = 4
    · rw [read_raw_other_read_ok env data t code val val2 _ (Or.inr rfl) h4, if_pos h4]
    · rw [read_raw_read_failed env data t _ val val2 _ (Or.inr rfl) h4, if_neg h4,
        ams5915_read_fail env t env.stack h4]

/-- C12: for a raw-mode or processed-mode query on the pressure or
temperature channel, if the read fails (the receive did not return 4) the
query returns exactly the read's error, which is negative, and leaves `val`
and `val2` as they were; if the read succeeds, a raw-mode query returns
`IIO_VAL_INT` with the decoded pressure_raw on the pressure channel and the
decoded temperature_raw on the temperature channel, unmodified. -/
theorem c12_query_error_propagation_and_raw_value (env : Env) (data : AMS5915_DATA_T)
    (t : List Effect) (val val2 : Int) :
    ((env.i2c_master_recv t).ret ≠ 4 →
      ∀ chan_type info,
        chan_type = .IIO_PRESSURE ∨ chan_type = .IIO_TEMP →
        info = .IIO_CHAN_INFO_RAW ∨ info = .IIO_CHAN_INFO_PROCESSED →
        (ams5915_read_raw env data t chan_type val val2 info).ret
          = (ams5915_read env t env.stack).ret ∧
        (ams5915_read_raw env data t chan_type val val2 info).ret
          = (if (env.i2c_master_recv t).ret < 0 then (env.i2c_master_recv t).ret else - EIO) ∧
        (ams5915_read_raw env data t chan_type val val2 info).ret < 0 ∧
        (ams5915_read_raw env data t chan_type val val2 info).val = val ∧
        (ams5915_read_raw env data t chan_type val val2 info).val2 = val2) ∧
    ((env.i2c_master_recv t).ret = 4 →
      (ams5915_read env t env.stack).ret = 0 ∧
      (ams5915_read_raw env data t .IIO_PRESSURE val val2 .IIO_CHAN_INFO_RAW).ret = IIO_VAL_INT ∧
      (ams5915_read_raw env data t .IIO_PRESSURE val val2 .IIO_CHAN_INFO_RAW).val
        = ((ams5915_read env t env.stack).raw.press : Int) ∧
      (ams5915_read_raw env data t .IIO_TEMP val val2 .IIO_CHAN_INFO_RAW).ret = IIO_VAL_INT ∧
      (ams5915_read_raw env data t .IIO_TEMP val val2 .IIO_CHAN_INFO_RAW).val
        = ((ams5915_read env t env.stack).raw.temp : Int)) := by
  constructor
  · intro h4 chan_type info _ hinfo
    rw [read_raw_read_failed env data t chan_type val val2 info hinfo h4]
    refine ⟨rfl, ?_, ams5915_read_fail_neg env t env.stack h4, rfl, rfl⟩
    rw [ams5915_read_fail env t env.stack h4]
  · intro h4
    obtain ⟨hp, ht⟩ := read_raw_raw_read_ok env data t val val2 h4
    rw [hp, ht]
    refine ⟨?_, rfl, rfl, rfl, rfl⟩
    rw [ams5915_read_full env t env.stack _ _ _ _ (recv_eta _ h4)]

/-- C12 at a 3-byte short read (processed pressure query: `-EIO`, outputs
untouched) and at the full buffer `2a bc de f0` (raw queries: 0x2abc and
0x6f7). -/
theorem c12_query_error_propagation_and_raw_value_witness :
    ((ams5915_read_raw (constEnv false ⟨3, 1, 2, 3, 0⟩) ⟨5, -8190⟩ [] .IIO_PRESSURE 41 42
        .IIO_CHAN_INFO_PROCESSED).ret = -5 ∧
     (ams5915_read_raw (constEnv false ⟨3, 1, 2, 3, 0⟩) ⟨5, -8190⟩ [] .IIO_PRESSURE 41 42
        .IIO_CHAN_INFO_PROCESSED).val = 41 ∧
     (ams5915_read_raw (constEnv false ⟨3, 1, 2, 3, 0⟩) ⟨5, -8190⟩ [] .IIO_PRESSURE 41 42
        .IIO_CHAN_INFO_PROCESSED).val2 = 42) ∧
    ((ams5915_read_raw (constEnv false ⟨4, 0x2a, 0xbc, 0xde, 0xf0⟩) ⟨5, -8190⟩ [] .IIO_PRESSURE
        41 42 .IIO_CHAN_INFO_RAW).ret = IIO_VAL_INT ∧
     (ams5915_read_raw (constEnv false ⟨4, 0x2a, 0xbc, 0xde, 0xf0⟩) ⟨5, -8190⟩ [] .IIO_PRESSURE
        41 42 .IIO_CHAN_INFO_RAW).val = 0x2abc ∧
     (ams5915_read_raw (constEnv false ⟨4, 0x2a, 0xbc, 0xde, 0xf0⟩) ⟨5, -8190⟩ [] .IIO_TEMP
        41 42 .IIO_CHAN_INFO_RAW).val = 0x6f7) :=
  ⟨⟨by decide,
    ((c12_query_error_propagation_and_raw_value (constEnv false ⟨3, 1, 2, 3, 0⟩) ⟨5, -8190⟩ []
        41 42).1 (by decide) .IIO_PRESSURE .IIO_CHAN_INFO_PROCESSED (Or.inl rfl)
        (Or.inr rfl)).2.2.2.1,
    ((c12_query_error_propagation_and_raw_value (constEnv false ⟨3, 1, 2, 3, 0⟩) ⟨5, -8190⟩ []
        41 42).1 (by decide) .IIO_PRESSURE .IIO_CHAN_INFO_PROCESSED (Or.inl rfl)
        (Or.inr rfl)).2.2.2.2⟩,
   ⟨((c12_query_error_propagation_and_raw_value (constEnv false ⟨4, 0x2a, 0xbc, 0xde, 0xf0⟩)
        ⟨5, -8190⟩ [] 41 42).2 rfl).2.1,
    by decide, by decide⟩⟩

/-- C13: every invocation of `ams5915_trigger_handler` returns `IRQ_HANDLED`
and adds effects to the trace among which `iio_trigger_notify_done` occurs
exactly once, as the last one.  The read either fails (negative) or returns
0; if it fails no sample is pushed, and if it succeeds exactly one sample is
pushed, the `raw` that this read filled in (pressure_raw, temperature_raw
and timestamp). -/
theorem c13_trigger_handler_effects (env : Env) (t : List Effect) :
    (ams5915_trigger_handler env t).ret = IRQ_HANDLED ∧
    (ams5915_trigger_handler env t).trace
      = t ++ (ams5915_trigger_handler env t).trace.drop t.length ∧
    ((ams5915_trigger_handler env t).trace.drop t.length).count
      Effect.iio_trigger_notify_done = 1 ∧
    ((ams5915_trigger_handler env t).trace.drop t.length).getLast?
      = some Effect.iio_trigger_notify_done ∧
    ((ams5915_read env t env.stack).ret < 0 ∨ (ams5915_read env t env.stack).ret = 0) ∧
    ((ams5915_read env t env.stack).ret < 0 →
      pushed ((ams5915_trigger_handler env t).trace.drop t.length) = []) ∧
    ((ams5915_read env t env.stack).ret = 0 →
      pushed ((ams5915_trigger_handler env t).trace.drop t.length)
        = [(ams5915_read env t env.stack).raw]) := by
  have hret : (ams5915_trigger_handler env t).ret = IRQ_HANDLED := by
    simp only [ams5915_trigger_handler]
    split_ifs <;> rfl
  by_cases h4 : (env.i2c_master_recv t).ret = 4
  · have hrx := recv_eta _ h4
    have h0 : (ams5915_read env t env.stack).ret = 0 := by
      rw [ams5915_read_full env t env.stack _ _ _ _ hrx]
    rw [trigger_handler_full env t _ _ _ _ hrx, List.drop_left]
    refine ⟨hret, rfl, by simp [List.count_cons], by simp, Or.inr h0, ?_, ?_⟩
    · intro hneg
      omega
    · intro _
      simp [pushed]
  · have hneg := ams5915_read_fail_neg env t env.stack h4
    rw [trigger_handler_fail env t h4, List.drop_left]
    refine ⟨hret, rfl, by simp [List.count_cons], by simp, Or.inl hneg, ?_, ?_⟩
    · intro _
      simp [pushed]
    · intro h0
      omega

/-- C13 at a capture that fails with a 2-byte short read and at a capture
that reads the buffer `12 34 56 78` at time 1000. -/
theorem c13_trigger_handler_effects_witness :
    ((ams5915_read (constEnv false ⟨2, 0, 0, 0, 0⟩) [] (constEnv false ⟨2, 0, 0, 0, 0⟩).stack).ret
        < 0 ∧
     pushed ((ams5915_trigger_handler (constEnv false ⟨2, 0, 0, 0, 0⟩) []).trace.drop
        ([] : List Effect).length) = [] ∧
     (ams5915_trigger_handler (constEnv false ⟨2, 0, 0, 0, 0⟩) []).trace
        = [Effect.i2c_master_recv ⟨2, 0, 0, 0, 0⟩, Effect.iio_trigger_notify_done]) ∧
    ((ams5915_read (constEnv false ⟨4, 0x12, 0x34, 0x56, 0x78⟩) []
        (constEnv false ⟨4, 0x12, 0x34, 0x56, 0x78⟩).stack).ret = 0 ∧
     pushed ((ams5915_trigger_handler (constEnv false ⟨4, 0x12, 0x34, 0x56, 0x78⟩) []).trace.drop
        ([] : List Effect).length)
        = [(ams5915_read (constEnv false ⟨4, 0x12, 0x34, 0x56, 0x78⟩) []
            (constEnv false ⟨4, 0x12, 0x34, 0x56, 0x78⟩).stack).raw] ∧
     (ams5915_trigger_handler (constEnv false ⟨4, 0x12, 0x34, 0x56, 0x78⟩) []).trace
        = [Effect.i2c_master_recv ⟨4, 0x12, 0x34, 0x56, 0x78⟩, Effect.iio_get_time_ns 1000,
           Effect.iio_push_to_buffers ⟨0x1234, 0x2b3, 1000⟩, Effect.iio_trigger_notify_done]) :=
  ⟨⟨by decide,
    (c13_trigger_handler_effects (constEnv false ⟨2, 0, 0, 0, 0⟩) []).2.2.2.2.2.1 (by decide),
    by decide⟩,
   ⟨by decide,
    (c13_trigger_handler_effects (constEnv false ⟨4, 0x12, 0x34, 0x56, 0x78⟩)
      []).2.2.2.2.2.2 (by decide),
    by decide⟩⟩

/-- C14: with the receives counted in the trace, a raw-mode or
processed-mode query on the pressure or temperature channel makes exactly
one receive; its return code and output values are the same in any
environment and after any history in which that receive has the same
outcome (nothing is cached); a second such query, issued after the first,
brings the count to two.  A scale-mode, offset-mode or unknown-mode query,
on any channel, leaves the trace as it was and so makes no receive. -/
theorem c14_receives_per_query (env env2 : Env) (data : AMS5915_DATA_T) (t t2 : List Effect)
    (chan_type : iio_chan_type) (val val2 : Int) (info : iio_chan_info) :
    (chan_type = .IIO_PRESSURE ∨ chan_type = .IIO_TEMP →
     info = .IIO_CHAN_INFO_RAW ∨ info = .IIO_CHAN_INFO_PROCESSED →
      recv_calls (ams5915_read_raw env data t chan_type val val2 info).trace
        = recv_calls t + 1 ∧
      (env.i2c_master_recv t = env2.i2c_master_recv t2 →
        (ams5915_read_raw env data t chan_type val val2 info).ret
          = (ams5915_read_raw env2 data t2 chan_type val val2 info).ret ∧
        (ams5915_read_raw env data t chan_type val val2 info).val
          = (ams5915_read_raw env2 data t2 chan_type val val2 info).val ∧
        (ams5915_read_raw env data t chan_type val val2 info).val2
          = (ams5915_read_raw env2 data t2 chan_type val val2 info).val2) ∧
      (∀ chan_type2 info2 v v2,
        chan_type2 = .IIO_PRESSURE ∨ chan_type2 = .IIO_TEMP →
        info2 = .IIO_CHAN_INFO_RAW ∨ info2 = .IIO_CHAN_INFO_PROCESSED →
        recv_calls (ams5915_read_raw env data
          (ams5915_read_raw env data t chan_type val val2 info).trace
          chan_type2 v v2 info2).trace = recv_calls t + 2)) ∧
    (info ≠ .IIO_CHAN_INFO_RAW ∧ info ≠ .IIO_CHAN_INFO_PROCESSED →
      (ams5915_read_raw env data t chan_type val val2 info).trace = t ∧
      recv_calls (ams5915_read_raw env data t chan_type val val2 info).trace = recv_calls t) := by
  constructor
  · intro _ hinfo
    have h1 : recv_calls (ams5915_read_raw env data t chan_type val val2 info).trace
        = recv_calls t + 1 := by
      rw [read_raw_trace_reading env data t chan_type val val2 info hinfo,
        ams5915_read_recv_calls]
    refine ⟨h1, read_raw_congr env env2 data t t2 chan_type val val2 info, ?_⟩
    intro chan_type2 info2 v v2 _ hinfo2
    rw [read_raw_trace_reading env data _ chan_type2 v v2 info2 hinfo2,
      ams5915_read_recv_calls, h1]
  · intro hinfo
    have ht := read_raw_trace_constant env data t chan_type val val2 info hinfo
    rw [ht]
    exact ⟨rfl, rfl⟩

/-- C14 on a transport that delivers `12 34 00 00` and then `05 55 00 00`:
two successive raw pressure queries return 0x1234 and then 0x0555 and make
two receives; a scale query in between would make none. -/
theorem c14_receives_per_query_witness :
    recv_calls (ams5915_read_raw (scriptedEnv [⟨4, 0x12, 0x34, 0, 0⟩, ⟨4, 0x05, 0x55, 0, 0⟩])
      ⟨5, -8190⟩ [] .IIO_PRESSURE 0 0 .IIO_CHAN_INFO_RAW).trace = recv_calls [] + 1 ∧
    (ams5915_read_raw (scriptedEnv [⟨4, 0x12, 0x34, 0, 0⟩, ⟨4, 0x05, 0x55, 0, 0⟩])
      ⟨5, -8190⟩ [] .IIO_PRESSURE 0 0 .IIO_CHAN_INFO_RAW).val = 0x1234 ∧
    (ams5915_read_raw (scriptedEnv [⟨4, 0x12, 0x34, 0, 0⟩, ⟨4, 0x05, 0x55, 0, 0⟩]) ⟨5, -8190⟩
      (ams5915_read_raw (scriptedEnv [⟨4, 0x12, 0x34, 0, 0⟩, ⟨4, 0x05, 0x55, 0, 0⟩])
        ⟨5, -8190⟩ [] .IIO_PRESSURE 0 0 .IIO_CHAN_INFO_RAW).trace
      .IIO_PRESSURE 0 0 .IIO_CHAN_INFO_RAW).val = 0x0555 ∧
    recv_calls (ams5915_read_raw (scriptedEnv [⟨4, 0x12, 0x34, 0, 0⟩, ⟨4, 0x05, 0x55, 0, 0⟩])
      ⟨5, -8190⟩
      (ams5915_read_raw (scriptedEnv [⟨4, 0x12, 0x34, 0, 0⟩, ⟨4, 0x05, 0x55, 0, 0⟩])
        ⟨5, -8190⟩ [] .IIO_PRESSURE 0 0 .IIO_CHAN_INFO_RAW).trace
      .IIO_PRESSURE 0 0 .IIO_CHAN_INFO_RAW).trace = recv_calls [] + 2 ∧
    (ams5915_read_raw (scriptedEnv [⟨4, 0x12, 0x34, 0, 0⟩, ⟨4, 0x05, 0x55, 0, 0⟩])
      ⟨5, -8190⟩ [] .IIO_PRESSURE 0 0 .IIO_CHAN_INFO_SCALE).trace = [] :=
  ⟨((c14_receives_per_query (scriptedEnv [⟨4, 0x12, 0x34, 0, 0⟩, ⟨4, 0x05, 0x55, 0, 0⟩])
      (constEnv true ⟨4, 0x12, 0x34, 0, 0⟩) ⟨5, -8190⟩ [] [] .IIO_PRESSURE 0 0
      .IIO_CHAN_INFO_RAW).1 (Or.inl rfl) (Or.inl rfl)).1,
   by decide, by decide,
   ((c14_receives_per_query (scriptedEnv [⟨4, 0x12, 0x34, 0, 0⟩, ⟨4, 0x05, 0x55, 0, 0⟩])
      (constEnv true ⟨4, 0x12, 0x34, 0, 0⟩) ⟨5, -8190⟩ [] [] .IIO_PRESSURE 0 0
      .IIO_CHAN_INFO_RAW).1 (Or.inl rfl) (Or.inl rfl)).2.2 .IIO_PRESSURE .IIO_CHAN_INFO_RAW 0 0
      (Or.inl rfl) (Or.inl rfl),
   ((c14_receives_per_query (scriptedEnv [⟨4, 0x12, 0x34, 0, 0⟩, ⟨4, 0x05, 0x55, 0, 0⟩])
      (constEnv true ⟨4, 0x12, 0x34, 0, 0⟩) ⟨5, -8190⟩ [] [] .IIO_PRESSURE 0 0
      .IIO_CHAN_INFO_SCALE).2 (by decide)).1⟩

/-- C15: with `type_id = (int) driver_data`, probe fails at the variant
lookup, returning `-EINVAL` with no effect at all (no allocation, bus
transaction or registration), if and only if `type_id < 0` or
`type_id >= 22`.  For `0 <= type_id < 22` the index is within the table,
probe goes on to `i2c_check_functionality`, and the calibration it stores
once the device is allocated is the one of `ams5915_types[type_id]`. -/
theorem c15_variant_lookup_range_check (env : Env) (driver_data : Nat) (t : List Effect) :
    (s32 driver_data < 0 ∨ s32 driver_data ≥ 22 →
      ams5915_i2c_probe env driver_data t = { ret := - EINVAL, data := none, trace := t }) ∧
    (((ams5915_i2c_probe env driver_data t).ret = - EINVAL ∧
      (ams5915_i2c_probe env driver_data t).trace = t) ↔
      (s32 driver_data < 0 ∨ s32 driver_data ≥ 22)) ∧
    (0 ≤ s32 driver_data → s32 driver_data < 22 →
      (s32 driver_data).toNat < ams5915_types.length ∧
      ∃ ty u, ams5915_types[(s32 driver_data).toNat]? = some ty ∧
        (ams5915_i2c_probe env driver_data t).trace
          = t ++ Effect.i2c_check_functionality :: u ∧
        (ams5915_i2c_probe env driver_data t).data
          = if env.i2c_check_functionality = true ∧ env.devm_iio_device_alloc = true
            then some (calibration ty) else none) := by
  have hcount : ((AMS5915_TYPE_COUNT : Nat) : Int) = 22 := rfl
  refine ⟨?_, ?_, ?_⟩
  · intro h
    exact probe_out_of_range env driver_data t (by rw [hcount]; exact h)
  · constructor
    · rintro ⟨_, htr⟩
      by_contra hr
      obtain ⟨u, hu⟩ := probe_in_range_trace env driver_data t (by rw [hcount]; exact hr)
      rw [hu] at htr
      have hlen := congrArg List.length htr
      simp at hlen
    · intro h
      rw [probe_out_of_range env driver_data t (by rw [hcount]; exact h)]
      exact ⟨rfl, rfl⟩
  · intro hlo hhi
    have hr : ¬ (s32 driver_data < 0 ∨ s32 driver_data ≥ (AMS5915_TYPE_COUNT : Int)) := by
      rw [hcount]; omega
    have hlen : ams5915_types.length = 22 := rfl
    have hlt : (s32 driver_data).toNat < ams5915_types.length := by omega
    obtain ⟨u, hu⟩ := probe_in_range_trace env driver_data t hr
    refine ⟨hlt, ams5915_types[(s32 driver_data).toNat], u, List.getElem?_eq_getElem hlt, hu, ?_⟩
    rw [probe_data, if_neg hr, List.getElem?_eq_getElem hlt]
    cases env.i2c_check_functionality <;> cases env.devm_iio_device_alloc <;> simp

/-- C15 at `driver_data = 22` (one past the table), at
`driver_data = 2^32 - 1` (`type_id = -1`) and at `driver_data = 21`. -/
theorem c15_variant_lookup_range_check_witness :
    ams5915_i2c_probe (constEnv false ⟨4, 0, 0, 0, 0⟩) 22 []
      = { ret := - EINVAL, data := none, trace := [] } ∧
    (s32 4294967295 = -1 ∧
     ams5915_i2c_probe (constEnv false ⟨4, 0, 0, 0, 0⟩) 4294967295 []
      = { ret := - EINVAL, data := none, trace := [] }) ∧
    ((s32 21).toNat < ams5915_types.length ∧
     ∃ ty u, ams5915_types[(s32 21).toNat]? = some ty ∧
        (ams5915_i2c_probe (constEnv false ⟨4, 0, 0, 0, 0⟩) 21 []).trace
          = [] ++ Effect.i2c_check_functionality :: u ∧
        (ams5915_i2c_probe (constEnv false ⟨4, 0, 0, 0, 0⟩) 21 []).data
          = if (constEnv false ⟨4, 0, 0, 0, 0⟩).i2c_check_functionality = true ∧
               (constEnv false ⟨4, 0, 0, 0, 0⟩).devm_iio_device_alloc = true
            then some (calibration ty) else none) :=
  ⟨(c15_variant_lookup_range_check (constEnv false ⟨4, 0, 0, 0, 0⟩) 22 []).1 (by decide),
   ⟨by decide,
    (c15_variant_lookup_range_check (constEnv false ⟨4, 0, 0, 0, 0⟩) 4294967295 []).1
      (by decide)⟩,
   (c15_variant_lookup_range_check (constEnv false ⟨4, 0, 0, 0, 0⟩) 21 []).2.2
      (by decide) (by decide)⟩

/-- C16: write `t2` for the trace after `i2c_check_functionality` and
`devm_iio_device_alloc`, where probe issues its initial read.  If probe
reaches that read and the receive does not return 4, probe returns the
read's (negative) error and its effects end with the receive and `dev_err`:
no triggered-buffer setup, no registration.  If `devm_iio_device_register`
occurs among the effects of probe, the receive returned 4, the read returned
0, and the registration comes after that read and the buffer setup.  Probe
returns 0 exactly when the variant is in the table, the functionality check
and the allocation succeed, the receive returned 4, and neither the buffer
setup nor the registration returned a negative value. -/
theorem c16_probe_read_before_registration (env : Env) (driver_data : Nat) (t : List Effect) :
    (0 ≤ s32 driver_data ∧ s32 driver_data < 22 →
     env.i2c_check_functionality = true → env.devm_iio_device_alloc = true →
     (env.i2c_master_recv
        (t ++ [Effect.i2c_check_functionality, Effect.devm_iio_device_alloc])).ret ≠ 4 →
      (ams5915_i2c_probe env driver_data t).ret
        = (ams5915_read env (t ++ [Effect.i2c_check_functionality, Effect.devm_iio_device_alloc])
            env.stack).ret ∧
      (ams5915_i2c_probe env driver_data t).ret < 0 ∧
      (ams5915_i2c_probe env driver_data t).trace
        = t ++ [Effect.i2c_check_functionality, Effect.devm_iio_device_alloc,
            Effect.i2c_master_recv (env.i2c_master_recv
              (t ++ [Effect.i2c_check_functionality, Effect.devm_iio_device_alloc])),
            Effect.dev_err] ∧
      Effect.devm_iio_triggered_buffer_setup
        ∉ (ams5915_i2c_probe env driver_data t).trace.drop t.length ∧
      Effect.devm_iio_device_register
        ∉ (ams5915_i2c_probe env driver_data t).trace.drop t.length) ∧
    (Effect.devm_iio_device_register ∈ (ams5915_i2c_probe env driver_data t).trace.drop t.length →
      (env.i2c_master_recv
        (t ++ [Effect.i2c_check_functionality, Effect.devm_iio_device_alloc])).ret = 4 ∧
      (ams5915_read env (t ++ [Effect.i2c_check_functionality, Effect.devm_iio_device_alloc])
        env.stack).ret = 0 ∧
      ∃ rest, (ams5915_i2c_probe env driver_data t).trace
        = t ++ [Effect.i2c_check_functionality, Effect.devm_iio_device_alloc,
            Effect.i2c_master_recv (env.i2c_master_recv
              (t ++ [Effect.i2c_check_functionality, Effect.devm_iio_device_alloc])),
            Effect.iio_get_time_ns (ams5915_read env
              (t ++ [Effect.i2c_check_functionality, Effect.devm_iio_device_alloc])
              env.stack).raw.timestamp,
            Effect.devm_iio_triggered_buffer_setup, Effect.devm_iio_device_register] ++ rest) ∧
    ((ams5915_i2c_probe env driver_data t).ret = 0 ↔
      (0 ≤ s32 driver_data ∧ s32 driver_data < 22) ∧
      env.i2c_check_functionality = true ∧ env.devm_iio_device_alloc = true ∧
      (env.i2c_master_recv
        (t ++ [Effect.i2c_check_functionality, Effect.devm_iio_device_alloc])).ret = 4 ∧
      0 ≤ env.devm_iio_triggered_buffer_setup ∧ 0 ≤ env.devm_iio_device_register) := by
  have hcount : ((AMS5915_TYPE_COUNT : Nat) : Int) = 22 := rfl
  have h := probe_ret_trace env driver_data t
  rw [hcount] at h
  have hfull := probe_read_trace_full env t
  have hok : (env.i2c_master_recv
      (t ++ [Effect.i2c_check_functionality, Effect.devm_iio_device_alloc])).ret = 4 →
      (ams5915_read env (t ++ [Effect.i2c_check_functionality, Effect.devm_iio_device_alloc])
        env.stack).ret = 0 := by
    intro h4
    rw [ams5915_read_full env _ env.stack _ _ _ _ (recv_eta _ h4)]
  have hfail := ams5915_read_fail env
    (t ++ [Effect.i2c_check_functionality, Effect.devm_iio_device_alloc]) env.stack
  refine ⟨?_, ?_, ?_⟩
  · intro hr hf ha h4
    rw [if_neg (by omega), if_neg (by simp [hf]), if_neg (by simp [ha]), if_pos h4] at h
    obtain ⟨hret, htr⟩ := Prod.mk.inj h
    rw [hret, htr, hfail h4, List.drop_left]
    refine ⟨rfl, ?_, rfl, by simp, by simp⟩
    simp only [ EIO]
    split <;> omega
  · intro hmem
    split_ifs at h with h1 h2 h3 h4 h5 h6 h7
    all_goals obtain ⟨hret, htr⟩ := Prod.mk.inj h
    all_goals rw [htr] at hmem ⊢
    · simp at hmem
    · simp at hmem
    · simp at hmem
    · simp at hmem
    · simp at hmem
    · rw [hfull (not_not.mp h4)] at hmem
      simp at hmem
    · rw [hfull (not_not.mp h4)]
      exact ⟨not_not.mp h4, hok (not_not.mp h4), [Effect.dev_err], by simp⟩
    · rw [hfull (not_not.mp h4)]
      exact ⟨not_not.mp h4, hok (not_not.mp h4), [], by simp⟩
  · split_ifs at h with h1 h2 h3 h4 h5 h6 h7
    all_goals obtain ⟨hret, htr⟩ := Prod.mk.inj h
    all_goals rw [hret]
    · simp only [ EINVAL]
      constructor
      · intro h0
        omega
      · intro hall
        omega
    · simp only [ EOPNOTSUPP]
      constructor
      · intro h0
        omega
      · intro hall
        rw [h2] at hall
        simp at hall
    · simp only [ ENOMEM]
      constructor
      · intro h0
        omega
      · intro hall
        rw [h3] at hall
        simp at hall
    · constructor
      · intro h0
        omega
      · intro hall
        exact absurd hall.2.2.2.1 h4
    · simp only [ EIO]
      constructor
      · intro h0
        omega
      · intro hall
        exact absurd hall.2.2.2.1 h4
    · constructor
      · intro h0
        omega
      · intro hall
        omega
    · constructor
      · intro h0
        omega
      · intro hall
        omega
    · constructor
      · intro _
        refine ⟨by omega, ?_, ?_, not_not.mp h4, by omega, by omega⟩
        · simpa using h2
        · simpa using h3
      · intro _
        rfl

/-- C16 at variant 0010-D-B with a transport that delivers only 2 bytes
(probe returns `-EIO` after the receive and `dev_err`), and with one that
delivers 4 bytes (probe registers the device and returns 0). -/
theorem c16_probe_read_before_registration_witness :
    ((ams5915_i2c_probe (constEnv false ⟨2, 0, 0, 0, 0⟩) AMS5915_0010_D_B_TYPE []).ret < 0 ∧
     (ams5915_i2c_probe (constEnv false ⟨2, 0, 0, 0, 0⟩) AMS5915_0010_D_B_TYPE []).ret = -5 ∧
     (ams5915_i2c_probe (constEnv false ⟨2, 0, 0, 0, 0⟩) AMS5915_0010_D_B_TYPE []).trace
        = [Effect.i2c_check_functionality, Effect.devm_iio_device_alloc,
           Effect.i2c_master_recv ⟨2, 0, 0, 0, 0⟩, Effect.dev_err]) ∧
    ((ams5915_i2c_probe (constEnv false ⟨4, 0x06, 0x66, 0x40, 0⟩) AMS5915_0010_D_B_TYPE []).ret
        = 0 ∧
     (constEnv false ⟨4, 0x06, 0x66, 0x40, 0⟩).i2c_master_recv
        ([] ++ [Effect.i2c_check_functionality, Effect.devm_iio_device_alloc])
        = ⟨4, 0x06, 0x66, 0x40, 0⟩ ∧
     (ams5915_i2c_probe (constEnv false ⟨4, 0x06, 0x66, 0x40, 0⟩) AMS5915_0010_D_B_TYPE []).trace
        = [Effect.i2c_check_functionality, Effect.devm_iio_device_alloc,
           Effect.i2c_master_recv ⟨4, 0x06, 0x66, 0x40, 0⟩, Effect.iio_get_time_ns 1000,
           Effect.devm_iio_triggered_buffer_setup, Effect.devm_iio_device_register]) :=
  ⟨⟨((c16_probe_read_before_registration (constEnv false ⟨2, 0, 0, 0, 0⟩)
        AMS5915_0010_D_B_TYPE []).1 ⟨by decide, by decide⟩ rfl rfl (by decide)).2.1,
    by decide,
    ((c16_probe_read_before_registration (constEnv false ⟨2, 0, 0, 0, 0⟩)
        AMS5915_0010_D_B_TYPE []).1 ⟨by decide, by decide⟩ rfl rfl (by decide)).2.2.1⟩,
   ⟨(c16_probe_read_before_registration (constEnv false ⟨4, 0x06, 0x66, 0x40, 0⟩)
        AMS5915_0010_D_B_TYPE []).2.2.mpr
        ⟨⟨by decide, by decide⟩, rfl, rfl, by decide, by decide, by decide⟩,
    rfl,
    by decide⟩⟩

/-- C17: with `int` and `uint32_t` operations taken modulo `2^32`, for a
cataloged variant with table entry `ty` and the calibration `d` probe stored
for it: every `int` operation of the calibration (`pmax - pmin`,
`pmin * 13107`, `1638 * scale` and their difference) stays within the signed
32-bit range, so `d` holds the exact integers; for the pressure_raw `p`
decoded from any full receive (and every `p` in `[0, 16383]` is decoded from
some buffer), the numerator the processed pressure query returns is the
exact integer `p*(pmax - pmin) + pmin*13107 - 1638*(pmax - pmin)`, itself in
range; and for `x` in `[0, 2047]` the product `x * 200000` does not exceed
`2^32 - 1`, so the `uint32_t` product of the temperature conversion is
exact. -/
theorem c17_no_overflow_in_documented_ranges (env0 : Env) (t0 : List Effect) (driver_data : Nat)
    (ty : AMS5915_TYPEDEF_T) (d : AMS5915_DATA_T)
    (hty : ams5915_types[driver_data]? = some ty)
    (hd : (ams5915_i2c_probe env0 driver_data t0).data = some d)
    (env : Env) (t : List Effect) (val val2 : Int) (b0 b1 b2 b3 : Fin 256) (p : Nat)
    (hrx : env.i2c_master_recv t = ⟨4, b0, b1, b2, b3⟩)
    (hp : (ams5915_read env t env.stack).raw.press = p)
    (x : Nat) (hx : x ≤ 2047) :
    ((-2 ^ 31 ≤ ty.pmax - ty.pmin ∧ ty.pmax - ty.pmin < 2 ^ 31) ∧
     (-2 ^ 31 ≤ ty.pmin * PRESS_SCALE_DIV ∧ ty.pmin * PRESS_SCALE_DIV < 2 ^ 31) ∧
     (-2 ^ 31 ≤ PRESS_RAW_MIN * (ty.pmax - ty.pmin) ∧
       PRESS_RAW_MIN * (ty.pmax - ty.pmin) < 2 ^ 31) ∧
     (-2 ^ 31 ≤ ty.pmin * PRESS_SCALE_DIV - PRESS_RAW_MIN * (ty.pmax - ty.pmin) ∧
       ty.pmin * PRESS_SCALE_DIV - PRESS_RAW_MIN * (ty.pmax - ty.pmin) < 2 ^ 31)) ∧
    (d.press_scale_mul = ty.pmax - ty.pmin ∧
     d.press_offset = ty.pmin * 13107 - 1638 * (ty.pmax - ty.pmin)) ∧
    (p ≤ 16383 ∧
     (ams5915_read_raw env d t .IIO_PRESSURE val val2 .IIO_CHAN_INFO_PROCESSED).val
       = (p : Int) * (ty.pmax - ty.pmin) + ty.pmin * 13107 - 1638 * (ty.pmax - ty.pmin) ∧
     -2 ^ 31 ≤ (p : Int) * (ty.pmax - ty.pmin) + ty.pmin * 13107 - 1638 * (ty.pmax - ty.pmin) ∧
     (p : Int) * (ty.pmax - ty.pmin) + ty.pmin * 13107 - 1638 * (ty.pmax - ty.pmin) < 2 ^ 31) ∧
    (∀ q : Nat, q ≤ 16383 → ∃ c0 c1 : Fin 256, (c0.val * 256 + c1.val) % 16384 = q) ∧
    (x * 200000 ≤ 2 ^ 32 - 1 ∧ (x * u32 TEMP_SCALE_MUL) % 2 ^ 32 = x * 200000) := by
  have hmem := List.getElem?_mem hty
  have hcal := probe_data_of_variant env0 t0 driver_data ty d hty hd
  subst hcal
  obtain ⟨h1, h2, h3, h4, _, _, _⟩ := types_no_overflow ty hmem
  obtain ⟨hb0, hblo, hbhi⟩ := types_calibration_bounds ty hmem
  obtain ⟨hpress, _, hval, _⟩ :=
    read_raw_processed_press_calibrated ty hmem env t val val2 b0 b1 b2 b3 hrx
  have hple : p ≤ 16383 := by
    rw [← hp, hpress]
    omega
  have hp0 : (0 : Int) ≤ (p : Int) := Int.ofNat_nonneg p
  have hp1 : (p : Int) ≤ 16383 := by exact_mod_cast hple
  refine ⟨⟨h1, h2, h3, h4⟩, ⟨rfl, rfl⟩, ⟨hple, ?_, ?_, ?_⟩, ?_, ?_, ?_⟩
  · rw [hval, hp]
    simp only [calibration]
    ring
  · nlinarith
  · nlinarith
  · intro q hq
    exact ⟨⟨q / 256, by omega⟩, ⟨q % 256, by omega⟩, by dsimp only; omega⟩
  · omega
  · have hm : u32 TEMP_SCALE_MUL = 200000 := by decide
    rw [hm, Nat.mod_eq_of_lt (by omega)]

/-- C17 at variant 10000-D (range 0..10000, the largest scale) and the
buffer `3f ff 00 00` (pressure_raw 16383): numerator
`16383*10000 - 1638*10000 = 147450000`; and at temperature_raw 2047. -/
theorem c17_no_overflow_in_documented_ranges_witness :
    (ams5915_i2c_probe (constEnv false ⟨4, 0, 0, 0, 0⟩) AMS5915_10000_D_TYPE []).data
      = some ⟨10000, -16380000⟩ ∧
    (ams5915_read_raw (constEnv false ⟨4, 0x3f, 0xff, 0, 0⟩) ⟨10000, -16380000⟩ []
      .IIO_PRESSURE 0 0 .IIO_CHAN_INFO_PROCESSED).val
      = ((16383 : Nat) : Int) * ((⟨0, 10000⟩ : AMS5915_TYPEDEF_T).pmax
          - (⟨0, 10000⟩ : AMS5915_TYPEDEF_T).pmin)
        + (⟨0, 10000⟩ : AMS5915_TYPEDEF_T).pmin * 13107
        - 1638 * ((⟨0, 10000⟩ : AMS5915_TYPEDEF_T).pmax - (⟨0, 10000⟩ : AMS5915_TYPEDEF_T).pmin) ∧
    (ams5915_read_raw (constEnv false ⟨4, 0x3f, 0xff, 0, 0⟩) ⟨10000, -16380000⟩ []
      .IIO_PRESSURE 0 0 .IIO_CHAN_INFO_PROCESSED).val = 147450000 ∧
    (2047 * 200000 ≤ 2 ^ 32 - 1 ∧ (2047 * u32 TEMP_SCALE_MUL) % 2 ^ 32 = 2047 * 200000) :=
  ⟨by decide,
   (c17_no_overflow_in_documented_ranges (constEnv false ⟨4, 0, 0, 0, 0⟩) []
      AMS5915_10000_D_TYPE ⟨0, 10000⟩ ⟨10000, -16380000⟩ (by decide) (by decide)
      (constEnv false ⟨4, 0x3f, 0xff, 0, 0⟩) [] 0 0 0x3f 0xff 0 0 16383 rfl (by decide)
      2047 (by decide)).2.2.1.2.1,
   by decide,
   (c17_no_overflow_in_documented_ranges (constEnv false ⟨4, 0, 0, 0, 0⟩) []
      AMS5915_10000_D_TYPE ⟨0, 10000⟩ ⟨10000, -16380000⟩ (by decide) (by decide)
      (constEnv false ⟨4, 0x3f, 0xff, 0, 0⟩) [] 0 0 0x3f 0xff 0 0 16383 rfl (by decide)
      2047 (by decide)).2.2.2.2⟩

/-- C18: every entry of `ams5915_types` has `pmin < pmax`, and the
`press_scale_mul` of every calibration probe stores is `pmax - pmin` of a
table entry and strictly positive. -/
theorem c18_scale_strictly_positive :
    (∀ ty ∈ ams5915_types, ty.pmin < ty.pmax) ∧
    ams5915_types.length = 22 ∧
    (∀ (env : Env) (driver_data : Nat) (t : List Effect) (d : AMS5915_DATA_T),
      (ams5915_i2c_probe env driver_data t).data = some d →
      0 < d.press_scale_mul ∧
      ∃ ty ∈ ams5915_types, d.press_scale_mul = ty.pmax - ty.pmin) := by
  refine ⟨types_pmin_lt_pmax, rfl, ?_⟩
  intro env driver_data t d hd
  obtain ⟨ty, hmem, rfl⟩ := probe_data_some env t driver_data d hd
  have hlt := types_pmin_lt_pmax ty hmem
  refine ⟨?_, ty, hmem, rfl⟩
  simp only [calibration]
  omega

/-- C18 at variant 0005-D (range 0..5, the smallest scale): probe stores
scale 5. -/
theorem c18_scale_strictly_positive_witness :
    (ams5915_i2c_probe (constEnv false ⟨4, 0, 0, 0, 0⟩) AMS5915_0005_D_TYPE []).data
      = some ⟨5, -8190⟩ ∧
    (0 : Int) < (⟨5, -8190⟩ : AMS5915_DATA_T).press_scale_mul :=
  ⟨by decide,
   (c18_scale_strictly_positive.2.2 (constEnv false ⟨4, 0, 0, 0, 0⟩) AMS5915_0005_D_TYPE []
      ⟨5, -8190⟩ (by decide)).1⟩

/-- C19: if two full receives, in any two environments, after any two
histories and into any two `raw` buffers, deliver buffers that agree in
bytes 1 and 2, in the low six bits of byte 0 and in the top three bits of
byte 3 (so they differ at most in bits 15..14 of word0 and bits 4..0 of
word1), `ams5915_read` yields the same pressure_raw and the same
temperature_raw.  With equal buffers this says that the decoded pair is a
function of the 4 bytes alone, whatever the timestamp, the host byte order
and the earlier reads. -/
theorem c19_decoding_ignores_flag_bits (env env2 : Env) (t t2 : List Effect)
    (raw raw2 : AMS5915_RAW_T) (b0 b1 b2 b3 c0 c3 : Fin 256)
    (hrx : env.i2c_master_recv t = ⟨4, b0, b1, b2, b3⟩)
    (hrx2 : env2.i2c_master_recv t2 = ⟨4, c0, b1, b2, c3⟩)
    (h0 : b0.val &&& 0x3F = c0.val &&& 0x3F)
    (h3 : b3.val >>> 5 = c3.val >>> 5) :
    (ams5915_read env t raw).ret = 0 ∧ (ams5915_read env2 t2 raw2).ret = 0 ∧
    (ams5915_read env t raw).raw.press = (ams5915_read env2 t2 raw2).raw.press ∧
    (ams5915_read env t raw).raw.temp = (ams5915_read env2 t2 raw2).raw.temp := by
  have m6 : (0x3F : Nat) = 2 ^ 6 - 1 := by norm_num
  rw [m6, Nat.and_pow_two_sub_one_eq_mod, Nat.and_pow_two_sub_one_eq_mod] at h0
  rw [Nat.shiftRight_eq_div_pow, Nat.shiftRight_eq_div_pow] at h3
  have hb0 := b0.isLt
  have hc0 := c0.isLt
  have hb3 := b3.isLt
  have hc3 := c3.isLt
  rw [ams5915_read_full env t raw b0 b1 b2 b3 hrx,
    ams5915_read_full env2 t2 raw2 c0 b1 b2 c3 hrx2]
  refine ⟨rfl, rfl, ?_, ?_⟩ <;> dsimp only <;> omega

/-- C19 at the buffers `05 a3 9b 60` (little-endian host, first read, time
1000) and `c5 a3 9b 7f` (big-endian host, second read of a scripted
transport, another time): both decode to `(0x05a3, 0x4db)`. -/
theorem c19_decoding_ignores_flag_bits_witness :
    (constEnv false ⟨4, 0x05, 0xa3, 0x9b, 0x60⟩).i2c_master_recv [] = ⟨4, 0x05, 0xa3, 0x9b, 0x60⟩ ∧
    (constEnv true ⟨4, 0xc5, 0xa3, 0x9b, 0x7f⟩).i2c_master_recv
      [Effect.i2c_master_recv ⟨4, 0, 0, 0, 0⟩, Effect.iio_get_time_ns 5]
      = ⟨4, 0xc5, 0xa3, 0x9b, 0x7f⟩ ∧
    (ams5915_read (constEnv false ⟨4, 0x05, 0xa3, 0x9b, 0x60⟩) [] ⟨0, 0, 0⟩).raw.press
      = (ams5915_read (constEnv true ⟨4, 0xc5, 0xa3, 0x9b, 0x7f⟩)
          [Effect.i2c_master_recv ⟨4, 0, 0, 0, 0⟩, Effect.iio_get_time_ns 5] ⟨7, 8, 9⟩).raw.press ∧
    (ams5915_read (constEnv false ⟨4, 0x05, 0xa3, 0x9b, 0x60⟩) [] ⟨0, 0, 0⟩).raw.temp
      = (ams5915_read (constEnv true ⟨4, 0xc5, 0xa3, 0x9b, 0x7f⟩)
          [Effect.i2c_master_recv ⟨4, 0, 0, 0, 0⟩, Effect.iio_get_time_ns 5] ⟨7, 8, 9⟩).raw.temp ∧
    (ams5915_read (constEnv false ⟨4, 0x05, 0xa3, 0x9b, 0x60⟩) [] ⟨0, 0, 0⟩).raw.press = 0x05a3 ∧
    (ams5915_read (constEnv false ⟨4, 0x05, 0xa3, 0x9b, 0x60⟩) [] ⟨0, 0, 0⟩).raw.temp = 0x4db :=
  ⟨rfl, rfl,
   (c19_decoding_ignores_flag_bits (constEnv false ⟨4, 0x05, 0xa3, 0x9b, 0x60⟩)
      (constEnv true ⟨4, 0xc5, 0xa3, 0x9b, 0x7f⟩) []
      [Effect.i2c_master_recv ⟨4, 0, 0, 0, 0⟩, Effect.iio_get_time_ns 5] ⟨0, 0, 0⟩ ⟨7, 8, 9⟩
      0x05 0xa3 0x9b 0x60 0xc5 0x7f rfl rfl (by decide) (by decide)).2.2.1,
   (c19_decoding_ignores_flag_bits (constEnv false ⟨4, 0x05, 0xa3, 0x9b, 0x60⟩)
      (constEnv true ⟨4, 0xc5, 0xa3, 0x9b, 0x7f⟩) []
      [Effect.i2c_master_recv ⟨4, 0, 0, 0, 0⟩, Effect.iio_get_time_ns 5] ⟨0, 0, 0⟩ ⟨7, 8, 9⟩
      0x05 0xa3 0x9b 0x60 0xc5 0x7f rfl rfl (by decide) (by decide)).2.2.2,
   by decide, by decide⟩

/-- C20: for the calibration `d` probe stored for any variant and any full
receive, the four query modes agree.  On the pressure channel the processed,
scale and offset results are fractions over the same denominator 131070 and,
as rationals, processed = raw * scale + offset, with raw the raw-mode
result.  On the temperature channel the processed result is
`trunc(raw * scale_numerator / scale_denominator)` plus the offset-mode
integer, with the scale-mode pair `(200000, 2048)`. -/
theorem c20_query_modes_consistent (env0 : Env) (t0 : List Effect) (driver_data : Nat)
    (d : AMS5915_DATA_T) (hd : (ams5915_i2c_probe env0 driver_data t0).data = some d)
    (env : Env) (t : List Effect) (val val2 : Int) (b0 b1 b2 b3 : Fin 256)
    (hrx : env.i2c_master_recv t = ⟨4, b0, b1, b2, b3⟩) :
    ((ams5915_read_raw env d t .IIO_PRESSURE val val2 .IIO_CHAN_INFO_PROCESSED).ret
        = IIO_VAL_FRACTIONAL ∧
     (ams5915_read_raw env d t .IIO_PRESSURE val val2 .IIO_CHAN_INFO_SCALE).ret
        = IIO_VAL_FRACTIONAL ∧
     (ams5915_read_raw env d t .IIO_PRESSURE val val2 .IIO_CHAN_INFO_OFFSET).ret
        = IIO_VAL_FRACTIONAL ∧
     (ams5915_read_raw env d t .IIO_PRESSURE val val2 .IIO_CHAN_INFO_RAW).ret = IIO_VAL_INT) ∧
    ((ams5915_read_raw env d t .IIO_PRESSURE val val2 .IIO_CHAN_INFO_PROCESSED).val2 = 131070 ∧
     (ams5915_read_raw env d t .IIO_PRESSURE val val2 .IIO_CHAN_INFO_SCALE).val2 = 131070 ∧
     (ams5915_read_raw env d t .IIO_PRESSURE val val2 .IIO_CHAN_INFO_OFFSET).val2 = 131070) ∧
    (0 ≤ (ams5915_read_raw env d t .IIO_PRESSURE val val2 .IIO_CHAN_INFO_RAW).val ∧
     (ams5915_read_raw env d t .IIO_PRESSURE val val2 .IIO_CHAN_INFO_RAW).val ≤ 16383) ∧
    (((ams5915_read_raw env d t .IIO_PRESSURE val val2 .IIO_CHAN_INFO_PROCESSED).val : ℚ)
        / ((ams5915_read_raw env d t .IIO_PRESSURE val val2 .IIO_CHAN_INFO_PROCESSED).val2 : ℚ)
      = ((ams5915_read_raw env d t .IIO_PRESSURE val val2 .IIO_CHAN_INFO_RAW).val : ℚ)
          * (((ams5915_read_raw env d t .IIO_PRESSURE val val2 .IIO_CHAN_INFO_SCALE).val : ℚ)
              / ((ams5915_read_raw env d t .IIO_PRESSURE val val2 .IIO_CHAN_INFO_SCALE).val2 : ℚ))
        + ((ams5915_read_raw env d t .IIO_PRESSURE val val2 .IIO_CHAN_INFO_OFFSET).val : ℚ)
            / ((ams5915_read_raw env d t .IIO_PRESSURE val val2 .IIO_CHAN_INFO_OFFSET).val2 : ℚ)) ∧
    ((ams5915_read_raw env d t .IIO_TEMP val val2 .IIO_CHAN_INFO_SCALE).val = 200000 ∧
     (ams5915_read_raw env d t .IIO_TEMP val val2 .IIO_CHAN_INFO_SCALE).val2 = 2048 ∧
     0 ≤ (ams5915_read_raw env d t .IIO_TEMP val val2 .IIO_CHAN_INFO_RAW).val ∧
     (ams5915_read_raw env d t .IIO_TEMP val val2 .IIO_CHAN_INFO_RAW).val ≤ 2047) ∧
    (ams5915_read_raw env d t .IIO_TEMP val val2 .IIO_CHAN_INFO_PROCESSED).val
      = Int.tdiv
          ((ams5915_read_raw env d t .IIO_TEMP val val2 .IIO_CHAN_INFO_RAW).val
            * (ams5915_read_raw env d t .IIO_TEMP val val2 .IIO_CHAN_INFO_SCALE).val)
          (ams5915_read_raw env d t .IIO_TEMP val val2 .IIO_CHAN_INFO_SCALE).val2
        + (ams5915_read_raw env d t .IIO_TEMP val val2 .IIO_CHAN_INFO_OFFSET).val := by
  obtain ⟨ty, hmem, rfl⟩ := probe_data_some env0 t0 driver_data d hd
  have h4 : (env.i2c_master_recv t).ret = 4 := by rw [hrx]
  obtain ⟨hpress, hpret, hpval, hpval2⟩ :=
    read_raw_processed_press_calibrated ty hmem env t val val2 b0 b1 b2 b3 hrx
  obtain ⟨hrawp, hrawt⟩ := read_raw_raw_read_ok env (calibration ty) t val val2 h4
  obtain ⟨_, htval⟩ := read_raw_processed_temp env (calibration ty) t val val2 b0 b1 b2 b3 hrx
  have htemp : (ams5915_read env t env.stack).raw.temp = (b2.val * 256 + b3.val) / 32 % 2048 := by
    rw [ams5915_read_full env t env.stack b0 b1 b2 b3 hrx]
  have hkpa : PRESS_SCALE_DIV_KPA = 131070 := by decide
  have hsp : ams5915_read_raw env (calibration ty) t .IIO_PRESSURE val val2 .IIO_CHAN_INFO_SCALE
      = { ret := IIO_VAL_FRACTIONAL, val := (calibration ty).press_scale_mul, val2 := 131070,
          trace := t } := by
    simp only [ams5915_read_raw, hkpa]
  have hop : ams5915_read_raw env (calibration ty) t .IIO_PRESSURE val val2 .IIO_CHAN_INFO_OFFSET
      = { ret := IIO_VAL_FRACTIONAL, val := (calibration ty).press_offset, val2 := 131070,
          trace := t } := by
    simp only [ams5915_read_raw, hkpa]
  have hst : ams5915_read_raw env (calibration ty) t .IIO_TEMP val val2 .IIO_CHAN_INFO_SCALE
      = { ret := IIO_VAL_FRACTIONAL, val := 200000, val2 := 2048, trace := t } := rfl
  have hot : ams5915_read_raw env (calibration ty) t .IIO_TEMP val val2 .IIO_CHAN_INFO_OFFSET
      = { ret := IIO_VAL_INT, val := -50000, val2 := val2, trace := t } := rfl
  have hple : (b0.val * 256 + b1.val) % 16384 ≤ 16383 := by omega
  have htle : (b2.val * 256 + b3.val) / 32 % 2048 ≤ 2047 := by omega
  rw [hpret, hpval, hpval2, hrawp, hrawt, hsp, hop, hst, hot, htval, hpress, htemp]
  refine ⟨⟨rfl, rfl, rfl, rfl⟩, ⟨rfl, rfl, rfl⟩, ⟨?_, ?_⟩, ?_, ⟨rfl, rfl, ?_, ?_⟩, ?_⟩
  · exact Int.ofNat_nonneg _
  · dsimp only
    exact_mod_cast hple
  · push_cast
    ring
  · exact Int.ofNat_nonneg _
  · dsimp only
    exact_mod_cast htle
  · dsimp only
    rw [processed_temp_exact _ htle, Int.tdiv_eq_ediv (by omega) (by omega)]

/-- C20 at variant 0200-D and the buffer `1f ff 40 20` (pressure_raw 8191,
temperature_raw 513): `1310600/131070 = 8191 * (200/131070) + (-327600)/131070`
and `97 = trunc(513 * 200000 / 2048) + (-50000)`. -/
theorem c20_query_modes_consistent_witness :
    (ams5915_i2c_probe (constEnv false ⟨4, 0, 0, 0, 0⟩) AMS5915_0200_D_TYPE []).data
      = some ⟨200, -327600⟩ ∧
    (ams5915_read_raw (constEnv false ⟨4, 0x1f, 0xff, 0x40, 0x20⟩) ⟨200, -327600⟩ []
      .IIO_PRESSURE 0 0 .IIO_CHAN_INFO_PROCESSED).val = 1310600 ∧
    (ams5915_read_raw (constEnv false ⟨4, 0x1f, 0xff, 0x40, 0x20⟩) ⟨200, -327600⟩ []
      .IIO_PRESSURE 0 0 .IIO_CHAN_INFO_RAW).val = 8191 ∧
    (ams5915_read_raw (constEnv false ⟨4, 0x1f, 0xff, 0x40, 0x20⟩) ⟨200, -327600⟩ []
      .IIO_TEMP 0 0 .IIO_CHAN_INFO_PROCESSED).val = 97 ∧
    (ams5915_read_raw (constEnv false ⟨4, 0x1f, 0xff, 0x40, 0x20⟩) ⟨200, -327600⟩ []
      .IIO_TEMP 0 0 .IIO_CHAN_INFO_PROCESSED).val
      = Int.tdiv
          ((ams5915_read_raw (constEnv false ⟨4, 0x1f, 0xff, 0x40, 0x20⟩) ⟨200, -327600⟩ []
              .IIO_TEMP 0 0 .IIO_CHAN_INFO_RAW).val
            * (ams5915_read_raw (constEnv false ⟨4, 0x1f, 0xff, 0x40, 0x20⟩) ⟨200, -327600⟩ []
              .IIO_TEMP 0 0 .IIO_CHAN_INFO_SCALE).val)
          (ams5915_read_raw (constEnv false ⟨4, 0x1f, 0xff, 0x40, 0x20⟩) ⟨200, -327600⟩ []
              .IIO_TEMP 0 0 .IIO_CHAN_INFO_SCALE).val2
        + (ams5915_read_raw (constEnv false ⟨4, 0x1f, 0xff, 0x40, 0x20⟩) ⟨200, -327600⟩ []
              .IIO_TEMP 0 0 .IIO_CHAN_INFO_OFFSET).val :=
  ⟨by decide, by decide, by decide, by decide,
   (c20_query_modes_consistent (constEnv false ⟨4, 0, 0, 0, 0⟩) [] AMS5915_0200_D_TYPE
      ⟨200, -327600⟩ (by decide) (constEnv false ⟨4, 0x1f, 0xff, 0x40, 0x20⟩) [] 0 0
      0x1f 0xff 0x40 0x20 rfl).2.2.2.2.2⟩

end AMS5915
